import Mathlib

/-!
# Composer 2.3 passthrough shim (`HwcHal.h`) and EVS 1.1 camera session (`EvsCamera.h`)

A shallow embedding of `HwcHalImpl` (graphics/composer/2.3 passthrough) and of the
camera session declared in `EvsCamera.h`, followed by the properties proved about them.

Conventions of the embedding

* `int32_t` values that are only compared, stored and cast (error codes, enum
  values, keys) are carried as `Int`; bytes and other opaque payload words as `Nat`.
* `uint32_t` counts that the code uses as lengths are reduced `% 2 ^ 32` where they
  enter the model.
* A driver entry point is a function on the driver state `σ`; every pointer parameter
  becomes a value passed in and a value handed back.
* `hwc2_device.calls` is a ghost log of the driver entry points that were invoked and
  `hwc2_device.lookups` a ghost log of the `getFunction` queries.
-/

namespace HwcHal

/-! ## Types of the interface -/

/-- Display handle, `uint64_t` in the interface. -/
abbrev Display := Nat

/-- Layer handle, `uint64_t` in the interface. -/
abbrev Layer := Nat

/-- Result code `V2_1::Error`, an enum over `int32_t`, carried as its underlying value;
`static_cast<Error>(e)` of an `int32_t` is therefore the identity. -/
abbrev Error := Int

/-- Enumerators that `HwcHal.h` uses but that are declared in headers outside this
excerpt (`hwcomposer2.h`, `IComposerClient` types): they are parameters of the model. -/
structure Constants where
  HWC2_ERROR_NONE : Int
  NONE : Error
  UNSUPPORTED : Error

/-- Enumerator values of the Android headers, used to instantiate `Constants`. -/
def androidConstants : Constants :=
  { HWC2_ERROR_NONE := 0, NONE := 0, UNSUPPORTED := 8 }

/-- Color mode of `common::V1_1`, an enum over `int32_t`. -/
structure ColorMode_V1_1 where
  val : Int
deriving DecidableEq, Repr

/-- Color mode of `common::V1_2`, an enum over `int32_t`. -/
structure ColorMode where
  val : Int
deriving DecidableEq, Repr

/-- Pixel format of `common::V1_1`. -/
structure PixelFormat_V1_1 where
  val : Int
deriving DecidableEq, Repr

/-- Pixel format of `common::V1_2`. -/
structure PixelFormat where
  val : Int
deriving DecidableEq, Repr

/-- Dataspace of `common::V1_1`. -/
structure Dataspace_V1_1 where
  val : Int
deriving DecidableEq, Repr

/-- Dataspace of `common::V1_2`. -/
structure Dataspace where
  val : Int
deriving DecidableEq, Repr

/-- Render intent of `common::V1_1` (shared by both composer versions). -/
structure RenderIntent where
  val : Int
deriving DecidableEq, Repr

/-- Metadata key of `V2_2::IComposerClient`. -/
structure PerFrameMetadataKey_V2_2 where
  val : Int
deriving DecidableEq, Repr

/-- Metadata key of `V2_3::IComposerClient`. -/
structure PerFrameMetadataKey where
  val : Int
deriving DecidableEq, Repr

/-- One element of the argument of `setLayerPerFrameMetadataBlobs`: a key and a byte blob. -/
structure PerFrameMetadataBlob where
  key : PerFrameMetadataKey
  blob : List Nat
deriving DecidableEq, Repr

/-- The `static_cast` from the 2.3 color mode to the 2.2 one keeps the underlying value. -/
def castColorMode (mode : ColorMode) : ColorMode_V1_1 := ⟨mode.val⟩

/-- The `static_cast` from the 2.3 pixel format to the 2.2 one keeps the underlying value. -/
def castPixelFormat (format : PixelFormat) : PixelFormat_V1_1 := ⟨format.val⟩

/-- The `static_cast` from the 2.3 dataspace to the 2.2 one keeps the underlying value. -/
def castDataspace (dataspace : Dataspace) : Dataspace_V1_1 := ⟨dataspace.val⟩

/-- The `static_cast` from a 2.2 metadata key to the 2.3 one keeps the underlying value. -/
def castKey (key : PerFrameMetadataKey_V2_2) : PerFrameMetadataKey := ⟨key.val⟩

/-! ## Machine integers and buffers -/

/-- Conversion of a size to `uint32_t`. -/
def toUInt32 (n : Nat) : Nat := n % 2 ^ 32

/-- Conversion of a size to `int` (two's complement, 32 bits). -/
def toInt32 (n : Nat) : Int := ((n + 2 ^ 31) % 2 ^ 32 : Nat) - (2 ^ 31 : Int)

/-- Conversion of an `int32_t` to `size_t` (64 bits). -/
def toSizeT (x : Int) : Nat := (x % 2 ^ 64).toNat

/-- Effect of `resize(n)` on a vector of integers: the first `n` elements are kept and
new elements are value-initialised to zero. -/
def resize (v : List Nat) (n : Nat) : List Nat :=
  v.take n ++ List.replicate (n - v.length) 0

/-- What a caller-owned buffer `buf` holds after the driver stored the words `w` through
a raw pointer to its start: the driver cannot change the length of the buffer. -/
def writeThrough (buf w : List Nat) : List Nat :=
  w.take buf.length ++ buf.drop w.length

/-- Pointer returned by `data()` of a `std::vector`: null for a vector without elements,
otherwise a pointer to its elements. -/
def vectorData (v : List Nat) : Option (List Nat) :=
  if v.isEmpty then none else some v

/-- Effect of `memcpy(dst.data() + off, src.data(), n)` with `n = src.size()`; `none`
when the destination range is not inside `dst` (undefined behaviour). -/
def memcpyAt (dst : List Nat) (off : Int) (src : List Nat) : Option (List Nat) :=
  if 0 ≤ off ∧ off.toNat + src.length ≤ dst.length then
    some (dst.take off.toNat ++ src ++ dst.drop (off.toNat + src.length))
  else
    none

/-! ## The driver -/

/-- Function descriptors that `initDispatch` passes to `initOptionalDispatch`. -/
inductive FunctionDescriptor where
  | HWC2_FUNCTION_GET_DISPLAY_IDENTIFICATION_DATA
  | HWC2_FUNCTION_SET_LAYER_COLOR_TRANSFORM
  | HWC2_FUNCTION_GET_DISPLAYED_CONTENT_SAMPLING_ATTRIBUTES
  | HWC2_FUNCTION_SET_DISPLAYED_CONTENT_SAMPLING_ENABLED
  | HWC2_FUNCTION_GET_DISPLAYED_CONTENT_SAMPLE
  | HWC2_FUNCTION_GET_DISPLAY_CAPABILITIES
  | HWC2_FUNCTION_SET_LAYER_PER_FRAME_METADATA_BLOBS
deriving DecidableEq, Repr

/-- What one call of the driver's `getDisplayIdentificationData` hands back. -/
structure IdentificationReply where
  error : Int
  outPort : Nat
  outSize : Nat
  outData : List Nat
deriving DecidableEq, Repr

/-- What one call of the driver's `getDisplayedContentSamplingAttributes` hands back. -/
structure SamplingAttributesReply where
  error : Int
  format : Int
  dataspace : Int
  componentMask : Nat
deriving DecidableEq, Repr

/-- What one call of the driver's `getDisplayedContentSample` hands back. -/
structure ContentSampleReply where
  error : Int
  frameCount : Nat
  size : List Int
  samples : List (List Nat)
deriving DecidableEq, Repr

/-- What one call of the driver's `getDisplayCapabilities` hands back. -/
structure CapabilitiesReply where
  error : Int
  outCount : Nat
  outCapabilities : List Nat
deriving DecidableEq, Repr

/-- `HWC2_PFN_GET_DISPLAY_IDENTIFICATION_DATA`: display, `*outPort`, `*outSize`, `outData`
(`none` for a null pointer). -/
abbrev HWC2_PFN_GET_DISPLAY_IDENTIFICATION_DATA (σ : Type) :=
  Display → Nat → Nat → Option (List Nat) → σ → IdentificationReply × σ

/-- `HWC2_PFN_SET_LAYER_COLOR_TRANSFORM`: display, layer, matrix. -/
abbrev HWC2_PFN_SET_LAYER_COLOR_TRANSFORM (σ : Type) :=
  Display → Layer → List Nat → σ → Int × σ

/-- `HWC2_PFN_GET_DISPLAYED_CONTENT_SAMPLING_ATTRIBUTES`: display, `*format`,
`*dataspace`, `*componentMask`. -/
abbrev HWC2_PFN_GET_DISPLAYED_CONTENT_SAMPLING_ATTRIBUTES (σ : Type) :=
  Display → Int → Int → Nat → σ → SamplingAttributesReply × σ

/-- `HWC2_PFN_SET_DISPLAYED_CONTENT_SAMPLING_ENABLED`: display, enable, component mask,
maximum number of frames. -/
abbrev HWC2_PFN_SET_DISPLAYED_CONTENT_SAMPLING_ENABLED (σ : Type) :=
  Display → Int → Nat → Nat → σ → Int × σ

/-- `HWC2_PFN_GET_DISPLAYED_CONTENT_SAMPLE`: display, maxFrames, timestamp, `*frameCount`,
the four sizes, the four sample arrays (`none` for a null pointer). -/
abbrev HWC2_PFN_GET_DISPLAYED_CONTENT_SAMPLE (σ : Type) :=
  Display → Nat → Nat → Nat → List Int → Option (List (List Nat)) → σ → ContentSampleReply × σ

/-- `HWC2_PFN_GET_DISPLAY_CAPABILITIES`: display, `*outCount`, `outCapabilities`
(`none` for a null pointer). -/
abbrev HWC2_PFN_GET_DISPLAY_CAPABILITIES (σ : Type) :=
  Display → Nat → Option (List Nat) → σ → CapabilitiesReply × σ

/-- `HWC2_PFN_SET_LAYER_PER_FRAME_METADATA_BLOBS`: display, layer, numElements, keys,
sizes, metadata bytes. -/
abbrev HWC2_PFN_SET_LAYER_PER_FRAME_METADATA_BLOBS (σ : Type) :=
  Display → Layer → Nat → List Int → List Nat → List Nat → σ → Int × σ

/-- The anonymous struct type of `mDispatch`: one nullable function pointer per optional
driver entry point. -/
structure Dispatch (σ : Type) where
  getDisplayIdentificationData : Option (HWC2_PFN_GET_DISPLAY_IDENTIFICATION_DATA σ)
  setLayerColorTransform : Option (HWC2_PFN_SET_LAYER_COLOR_TRANSFORM σ)
  getDisplayedContentSamplingAttributes :
    Option (HWC2_PFN_GET_DISPLAYED_CONTENT_SAMPLING_ATTRIBUTES σ)
  setDisplayedContentSamplingEnabled :
    Option (HWC2_PFN_SET_DISPLAYED_CONTENT_SAMPLING_ENABLED σ)
  getDisplayedContentSample : Option (HWC2_PFN_GET_DISPLAYED_CONTENT_SAMPLE σ)
  getDisplayCapabilities : Option (HWC2_PFN_GET_DISPLAY_CAPABILITIES σ)
  setLayerPerFrameMetadataBlobs : Option (HWC2_PFN_SET_LAYER_PER_FRAME_METADATA_BLOBS σ)

/-- Value of `mDispatch = {}`: every entry is null. -/
def Dispatch.empty (σ : Type) : Dispatch σ :=
  { getDisplayIdentificationData := none
    setLayerColorTransform := none
    getDisplayedContentSamplingAttributes := none
    setDisplayedContentSamplingEnabled := none
    getDisplayedContentSample := none
    getDisplayCapabilities := none
    setLayerPerFrameMetadataBlobs := none }

/-- The driver device behind `mDevice`, together with everything below the 2.3 layer
(the private state of the 2.1 and 2.2 base classes is folded into `state`).
`getFunction` is the table of optional entry points the driver provides. -/
structure hwc2_device (σ : Type) where
  state : σ
  getFunction : Dispatch σ
  calls : List FunctionDescriptor
  lookups : List FunctionDescriptor

/-- Invocation of a driver entry point on the device: the driver state advances and the
call is logged. -/
def hwc2_device.invoke {σ α : Type} (dev : hwc2_device σ) (fd : FunctionDescriptor)
    (f : σ → α × σ) : α × hwc2_device σ :=
  ((f dev.state).1, { dev with state := (f dev.state).2, calls := dev.calls ++ [fd] })

/-- The object `HwcHalImpl`: the device inherited from the 2.1 base and the 2.3
dispatch table. -/
structure HwcHalImpl (σ : Type) where
  mDevice : hwc2_device σ
  mDispatch : Dispatch σ

/-- Members of the 2.2 base class that `HwcHal.h` calls and that are defined outside this
excerpt: they are parameters of the model. Each acts on the device. -/
structure BaseType2_2 (σ : Type) where
  initDispatch : hwc2_device σ → Bool × hwc2_device σ
  getPerFrameMetadataKeys : Display → List PerFrameMetadataKey_V2_2 → hwc2_device σ →
    (Error × List PerFrameMetadataKey_V2_2) × hwc2_device σ
  setColorMode_2_2 : Display → ColorMode_V1_1 → RenderIntent → hwc2_device σ →
    Error × hwc2_device σ
  getRenderIntents : Display → ColorMode_V1_1 → List RenderIntent → hwc2_device σ →
    (Error × List RenderIntent) × hwc2_device σ
  getClientTargetSupport_2_2 : Display → Nat → Nat → PixelFormat_V1_1 → Dataspace_V1_1 →
    hwc2_device σ → Error × hwc2_device σ

/-! ## Results of the operations

Every operation takes the prior contents of its output arguments and hands back their
contents after the call, next to the result code and the object after the call. -/

/-- Result code, output arguments and object after an operation. -/
structure Ret (σ ω : Type) where
  error : Error
  out : ω
  hal : HwcHalImpl σ

/-- Output arguments of `getDisplayIdentificationData`. -/
structure IdentificationOut where
  outPort : Nat
  outData : List Nat
deriving DecidableEq, Repr

/-- Output arguments of `getDisplayedContentSamplingAttributes`. -/
structure SamplingAttributesOut where
  format : PixelFormat
  dataspace : Dataspace
  componentMask : Nat
deriving DecidableEq, Repr

/-- Output arguments of `getDisplayedContentSample`. -/
structure ContentSampleOut where
  frameCount : Nat
  sampleComponent0 : List Nat
  sampleComponent1 : List Nat
  sampleComponent2 : List Nat
  sampleComponent3 : List Nat
deriving DecidableEq, Repr

/-! ## Operations of `HwcHalImpl` -/

/-- Body of the range-for loop of `getPerFrameMetadataKeys_2_3`: one `push_back`. -/
def pushCastKey (outKeys : List PerFrameMetadataKey) (key : PerFrameMetadataKey_V2_2) :
    List PerFrameMetadataKey :=
  outKeys ++ [castKey key]

/-- `HwcHalImpl::getPerFrameMetadataKeys_2_3`. -/
def getPerFrameMetadataKeys_2_3 {σ : Type} (k : Constants) (base : BaseType2_2 σ)
    (hal : HwcHalImpl σ) (display : Display) (outKeys : List PerFrameMetadataKey) :
    Ret σ (List PerFrameMetadataKey) :=
  let castKeys : List PerFrameMetadataKey_V2_2 := []
  let r := base.getPerFrameMetadataKeys display castKeys hal.mDevice
  let error := r.1.1
  let castKeys := r.1.2
  let hal := { hal with mDevice := r.2 }
  if error ≠ k.NONE then
    { error := error, out := outKeys, hal := hal }
  else
    let outKeys : List PerFrameMetadataKey := []
    let outKeys := castKeys.foldl pushCastKey outKeys
    { error := k.NONE, out := outKeys, hal := hal }

/-- `HwcHalImpl::setColorMode_2_3`. -/
def setColorMode_2_3 {σ : Type} (base : BaseType2_2 σ) (hal : HwcHalImpl σ)
    (display : Display) (mode : ColorMode) (intent : RenderIntent) : Ret σ Unit :=
  let r := base.setColorMode_2_2 display (castColorMode mode) intent hal.mDevice
  { error := r.1, out := (), hal := { hal with mDevice := r.2 } }

/-- `HwcHalImpl::getRenderIntents_2_3`. -/
def getRenderIntents_2_3 {σ : Type} (base : BaseType2_2 σ) (hal : HwcHalImpl σ)
    (display : Display) (mode : ColorMode) (outIntents : List RenderIntent) :
    Ret σ (List RenderIntent) :=
  let r := base.getRenderIntents display (castColorMode mode) outIntents hal.mDevice
  { error := r.1.1, out := r.1.2, hal := { hal with mDevice := r.2 } }

/-- `HwcHalImpl::getClientTargetSupport_2_3`. -/
def getClientTargetSupport_2_3 {σ : Type} (base : BaseType2_2 σ) (hal : HwcHalImpl σ)
    (display : Display) (width height : Nat) (format : PixelFormat) (dataspace : Dataspace) :
    Ret σ Unit :=
  let r := base.getClientTargetSupport_2_2 display width height (castPixelFormat format)
    (castDataspace dataspace) hal.mDevice
  { error := r.1, out := (), hal := { hal with mDevice := r.2 } }

/-- `HwcHalImpl::getDisplayIdentificationData`. -/
def getDisplayIdentificationData {σ : Type} (k : Constants) (hal : HwcHalImpl σ)
    (display : Display) (outPort : Nat) (outData : List Nat) : Ret σ IdentificationOut :=
  match hal.mDispatch.getDisplayIdentificationData with
  | none => { error := k.UNSUPPORTED, out := ⟨outPort, outData⟩, hal := hal }
  | some pfn =>
    let size : Nat := 0
    let r1 := hal.mDevice.invoke .HWC2_FUNCTION_GET_DISPLAY_IDENTIFICATION_DATA
      (pfn display outPort size none)
    let outPort := r1.1.outPort
    let size := toUInt32 r1.1.outSize
    if r1.1.error ≠ k.HWC2_ERROR_NONE then
      { error := r1.1.error, out := ⟨outPort, outData⟩, hal := { hal with mDevice := r1.2 } }
    else
      let data := List.replicate size 0
      let r2 := r1.2.invoke .HWC2_FUNCTION_GET_DISPLAY_IDENTIFICATION_DATA
        (pfn display outPort size (vectorData data))
      let outPort := r2.1.outPort
      let size := toUInt32 r2.1.outSize
      let data := writeThrough data r2.1.outData
      if r2.1.error ≠ k.HWC2_ERROR_NONE then
        { error := r2.1.error, out := ⟨outPort, outData⟩, hal := { hal with mDevice := r2.2 } }
      else
        let data := resize data size
        { error := k.NONE, out := ⟨outPort, data⟩, hal := { hal with mDevice := r2.2 } }

/-- `HwcHalImpl::setLayerColorTransform`. -/
def setLayerColorTransform {σ : Type} (k : Constants) (hal : HwcHalImpl σ)
    (display : Display) (layer : Layer) (matrix : List Nat) : Ret σ Unit :=
  match hal.mDispatch.setLayerColorTransform with
  | none => { error := k.UNSUPPORTED, out := (), hal := hal }
  | some pfn =>
    let r := hal.mDevice.invoke .HWC2_FUNCTION_SET_LAYER_COLOR_TRANSFORM
      (pfn display layer matrix)
    { error := r.1, out := (), hal := { hal with mDevice := r.2 } }

/-- `HwcHalImpl::getDisplayedContentSamplingAttributes`. -/
def getDisplayedContentSamplingAttributes {σ : Type} (k : Constants) (hal : HwcHalImpl σ)
    (display : Display) (format : PixelFormat) (dataspace : Dataspace)
    (componentMask : Nat) : Ret σ SamplingAttributesOut :=
  match hal.mDispatch.getDisplayedContentSamplingAttributes with
  | none => { error := k.UNSUPPORTED, out := ⟨format, dataspace, componentMask⟩, hal := hal }
  | some pfn =>
    let formatRaw : Int := 0
    let dataspaceRaw : Int := 0
    let componentMaskRaw : Nat := 0
    let r := hal.mDevice.invoke .HWC2_FUNCTION_GET_DISPLAYED_CONTENT_SAMPLING_ATTRIBUTES
      (pfn display formatRaw dataspaceRaw componentMaskRaw)
    let error : Error := r.1.error
    if error = k.NONE then
      { error := error, out := ⟨⟨r.1.format⟩, ⟨r.1.dataspace⟩, r.1.componentMask⟩,
        hal := { hal with mDevice := r.2 } }
    else
      { error := error, out := ⟨format, dataspace, componentMask⟩,
        hal := { hal with mDevice := r.2 } }

/-- `HwcHalImpl::setDisplayedContentSamplingEnabled`. -/
def setDisplayedContentSamplingEnabled {σ : Type} (k : Constants) (hal : HwcHalImpl σ)
    (display : Display) (enable : Int) (componentMask : Nat) (maxFrames : Nat) : Ret σ Unit :=
  match hal.mDispatch.setDisplayedContentSamplingEnabled with
  | none => { error := k.UNSUPPORTED, out := (), hal := hal }
  | some pfn =>
    let r := hal.mDevice.invoke .HWC2_FUNCTION_SET_DISPLAYED_CONTENT_SAMPLING_ENABLED
      (pfn display enable componentMask maxFrames)
    { error := r.1, out := (), hal := { hal with mDevice := r.2 } }

/-- `HwcHalImpl::getDisplayedContentSample`. -/
def getDisplayedContentSample {σ : Type} (k : Constants) (hal : HwcHalImpl σ)
    (display : Display) (maxFrames timestamp : Nat) (out : ContentSampleOut) :
    Ret σ ContentSampleOut :=
  match hal.mDispatch.getDisplayedContentSample with
  | none => { error := k.UNSUPPORTED, out := out, hal := hal }
  | some pfn =>
    let size : List Int := [0, 0, 0, 0]
    let r1 := hal.mDevice.invoke .HWC2_FUNCTION_GET_DISPLAYED_CONTENT_SAMPLE
      (pfn display maxFrames timestamp out.frameCount size none)
    let frameCount := r1.1.frameCount
    let size := r1.1.size
    if r1.1.error ≠ k.HWC2_ERROR_NONE then
      { error := r1.1.error, out := { out with frameCount := frameCount },
        hal := { hal with mDevice := r1.2 } }
    else
      let sampleComponent0 := resize out.sampleComponent0 (toSizeT (size.getD 0 0))
      let sampleComponent1 := resize out.sampleComponent1 (toSizeT (size.getD 1 0))
      let sampleComponent2 := resize out.sampleComponent2 (toSizeT (size.getD 2 0))
      let sampleComponent3 := resize out.sampleComponent3 (toSizeT (size.getD 3 0))
      let samples := [sampleComponent0, sampleComponent1, sampleComponent2, sampleComponent3]
      let r2 := r1.2.invoke .HWC2_FUNCTION_GET_DISPLAYED_CONTENT_SAMPLE
        (pfn display maxFrames timestamp frameCount size (some samples))
      { error := r2.1.error,
        out :=
          { frameCount := r2.1.frameCount
            sampleComponent0 := writeThrough sampleComponent0 (r2.1.samples.getD 0 [])
            sampleComponent1 := writeThrough sampleComponent1 (r2.1.samples.getD 1 [])
            sampleComponent2 := writeThrough sampleComponent2 (r2.1.samples.getD 2 [])
            sampleComponent3 := writeThrough sampleComponent3 (r2.1.samples.getD 3 []) },
        hal := { hal with mDevice := r2.2 } }

/-- `HwcHalImpl::getDisplayCapabilities`. -/
def getDisplayCapabilities {σ : Type} (k : Constants) (hal : HwcHalImpl σ)
    (display : Display) (outCapabilities : List Nat) : Ret σ (List Nat) :=
  match hal.mDispatch.getDisplayCapabilities with
  | none => { error := k.UNSUPPORTED, out := outCapabilities, hal := hal }
  | some pfn =>
    let count : Nat := 0
    let r1 := hal.mDevice.invoke .HWC2_FUNCTION_GET_DISPLAY_CAPABILITIES
      (pfn display count none)
    let count := toUInt32 r1.1.outCount
    if r1.1.error ≠ k.HWC2_ERROR_NONE then
      { error := r1.1.error, out := outCapabilities, hal := { hal with mDevice := r1.2 } }
    else
      let outCapabilities := resize outCapabilities count
      let r2 := r1.2.invoke .HWC2_FUNCTION_GET_DISPLAY_CAPABILITIES
        (pfn display count (some outCapabilities))
      let outCapabilities := writeThrough outCapabilities r2.1.outCapabilities
      if r2.1.error ≠ k.HWC2_ERROR_NONE then
        { error := r2.1.error, out := [], hal := { hal with mDevice := r2.2 } }
      else
        { error := k.NONE, out := outCapabilities, hal := { hal with mDevice := r2.2 } }

/-- The three local vectors of `setLayerPerFrameMetadataBlobs`. -/
structure BlobArrays where
  keys : List Int
  sizes : List Nat
  blobs : List Nat
deriving DecidableEq, Repr

/-- Body of the range-for loop of `setLayerPerFrameMetadataBlobs`; `none` when the
`memcpy` would write outside `blobs`. -/
def appendBlob (acc : BlobArrays) (metadataBlob : PerFrameMetadataBlob) : Option BlobArrays :=
  let keys := acc.keys ++ [metadataBlob.key.val]
  let sizes := acc.sizes ++ [toUInt32 metadataBlob.blob.length]
  let writeIndex : Int := toInt32 acc.blobs.length
  let blobs := resize acc.blobs (acc.blobs.length + metadataBlob.blob.length)
  (memcpyAt blobs writeIndex metadataBlob.blob).map fun blobs =>
    { keys := keys, sizes := sizes, blobs := blobs }

/-- The range-for loop of `setLayerPerFrameMetadataBlobs`. -/
def appendBlobs (acc : BlobArrays) : List PerFrameMetadataBlob → Option BlobArrays
  | [] => some acc
  | metadataBlob :: rest => (appendBlob acc metadataBlob).bind fun acc => appendBlobs acc rest

/-- `HwcHalImpl::setLayerPerFrameMetadataBlobs`; `none` when the loop runs into
undefined behaviour. -/
def setLayerPerFrameMetadataBlobs {σ : Type} (k : Constants) (hal : HwcHalImpl σ)
    (display : Display) (layer : Layer) (metadata : List PerFrameMetadataBlob) :
    Option (Ret σ Unit) :=
  match hal.mDispatch.setLayerPerFrameMetadataBlobs with
  | none => some { error := k.UNSUPPORTED, out := (), hal := hal }
  | some pfn =>
    (appendBlobs { keys := [], sizes := [], blobs := [] } metadata).map fun a =>
      let r := hal.mDevice.invoke .HWC2_FUNCTION_SET_LAYER_PER_FRAME_METADATA_BLOBS
        (pfn display layer (toUInt32 metadata.length) a.keys a.sizes a.blobs)
      { error := r.1, out := (), hal := { hal with mDevice := r.2 } }

/-- Modelled from the spec: `initOptionalDispatch` of the 2.1 base class is not part of
this excerpt. The dispatch table is populated at initialization from the optional
functions the driver provides: the descriptor is looked up with the device's
`getFunction`; when the driver provides the function the entry is written and the result
is `true`, otherwise the entry is left alone and the result is `false`. -/
def initOptionalDispatch {σ : Type} (desc : FunctionDescriptor) (hal : HwcHalImpl σ) :
    Bool × HwcHalImpl σ :=
  let dev := { hal.mDevice with lookups := hal.mDevice.lookups ++ [desc] }
  match desc with
  | .HWC2_FUNCTION_GET_DISPLAY_IDENTIFICATION_DATA =>
    match dev.getFunction.getDisplayIdentificationData with
    | some pfn =>
      (true, { mDevice := dev, mDispatch := { hal.mDispatch with getDisplayIdentificationData := some pfn } })
    | none => (false, { mDevice := dev, mDispatch := hal.mDispatch })
  | .HWC2_FUNCTION_SET_LAYER_COLOR_TRANSFORM =>
    match dev.getFunction.setLayerColorTransform with
    | some pfn =>
      (true, { mDevice := dev, mDispatch := { hal.mDispatch with setLayerColorTransform := some pfn } })
    | none => (false, { mDevice := dev, mDispatch := hal.mDispatch })
  | .HWC2_FUNCTION_GET_DISPLAYED_CONTENT_SAMPLING_ATTRIBUTES =>
    match dev.getFunction.getDisplayedContentSamplingAttributes with
    | some pfn =>
      (true, { mDevice := dev, mDispatch := { hal.mDispatch with getDisplayedContentSamplingAttributes := some pfn } })
    | none => (false, { mDevice := dev, mDispatch := hal.mDispatch })
  | .HWC2_FUNCTION_SET_DISPLAYED_CONTENT_SAMPLING_ENABLED =>
    match dev.getFunction.setDisplayedContentSamplingEnabled with
    | some pfn =>
      (true, { mDevice := dev, mDispatch := { hal.mDispatch with setDisplayedContentSamplingEnabled := some pfn } })
    | none => (false, { mDevice := dev, mDispatch := hal.mDispatch })
  | .HWC2_FUNCTION_GET_DISPLAYED_CONTENT_SAMPLE =>
    match dev.getFunction.getDisplayedContentSample with
    | some pfn =>
      (true, { mDevice := dev, mDispatch := { hal.mDispatch with getDisplayedContentSample := some pfn } })
    | none => (false, { mDevice := dev, mDispatch := hal.mDispatch })
  | .HWC2_FUNCTION_GET_DISPLAY_CAPABILITIES =>
    match dev.getFunction.getDisplayCapabilities with
    | some pfn =>
      (true, { mDevice := dev, mDispatch := { hal.mDispatch with getDisplayCapabilities := some pfn } })
    | none => (false, { mDevice := dev, mDispatch := hal.mDispatch })
  | .HWC2_FUNCTION_SET_LAYER_PER_FRAME_METADATA_BLOBS =>
    match dev.getFunction.setLayerPerFrameMetadataBlobs with
    | some pfn =>
      (true, { mDevice := dev, mDispatch := { hal.mDispatch with setLayerPerFrameMetadataBlobs := some pfn } })
    | none => (false, { mDevice := dev, mDispatch := hal.mDispatch })

/-- `HwcHalImpl::initDispatch`; the results of the optional lookups are discarded. -/
def initDispatch {σ : Type} (base : BaseType2_2 σ) (hal : HwcHalImpl σ) :
    Bool × HwcHalImpl σ :=
  let r := base.initDispatch hal.mDevice
  let hal := { hal with mDevice := r.2 }
  if !r.1 then
    (false, hal)
  else
    let hal := (initOptionalDispatch .HWC2_FUNCTION_GET_DISPLAY_IDENTIFICATION_DATA hal).2
    let hal := (initOptionalDispatch .HWC2_FUNCTION_SET_LAYER_COLOR_TRANSFORM hal).2
    let hal := (initOptionalDispatch .HWC2_FUNCTION_GET_DISPLAYED_CONTENT_SAMPLING_ATTRIBUTES hal).2
    let hal := (initOptionalDispatch .HWC2_FUNCTION_SET_DISPLAYED_CONTENT_SAMPLING_ENABLED hal).2
    let hal := (initOptionalDispatch .HWC2_FUNCTION_GET_DISPLAYED_CONTENT_SAMPLE hal).2
    let hal := (initOptionalDispatch .HWC2_FUNCTION_GET_DISPLAY_CAPABILITIES hal).2
    let hal := (initOptionalDispatch .HWC2_FUNCTION_SET_LAYER_PER_FRAME_METADATA_BLOBS hal).2
    (true, hal)

end HwcHal

namespace HwcHal

/-! ## Concrete objects used to evaluate the operations -/

/-- A device whose driver provides none of the optional entry points. -/
def bareDevice : hwc2_device Nat :=
  { state := 0, getFunction := Dispatch.empty Nat, calls := [], lookups := [] }

/-- An object on `bareDevice` whose dispatch table is all null. -/
def bareHal : HwcHalImpl Nat :=
  { mDevice := bareDevice, mDispatch := Dispatch.empty Nat }

/-- Total number of blob bytes of a metadata list. -/
def totalBlobBytes (metadata : List PerFrameMetadataBlob) : Nat :=
  (metadata.map fun m => m.blob.length).sum

/-- A driver function for `setLayerPerFrameMetadataBlobs` that stores the `numElements`
it receives in the driver state and returns the number of metadata bytes as result code. -/
def recordingDriver : HWC2_PFN_SET_LAYER_PER_FRAME_METADATA_BLOBS Nat :=
  fun _ _ numElements _ _ blobs _ => ((blobs.length : Int), numElements)

/-- A device whose driver provides `recordingDriver` and nothing else. -/
def recordingDevice : hwc2_device Nat :=
  { state := 77
    getFunction :=
      { Dispatch.empty Nat with setLayerPerFrameMetadataBlobs := some recordingDriver }
    calls := []
    lookups := [] }

/-- An object on `recordingDevice` after initialization. -/
def recordingHal : HwcHalImpl Nat :=
  { mDevice := recordingDevice, mDispatch := recordingDevice.getFunction }

/-- A metadata list of three entries whose blobs hold two, no and one byte. -/
def threeBlobs : List PerFrameMetadataBlob :=
  [{ key := ⟨1⟩, blob := [1, 2] }, { key := ⟨2⟩, blob := [] }, { key := ⟨3⟩, blob := [3] }]

/-- The reply and the driver state after the size query that
`getDisplayIdentificationData` makes first: size zero, null data pointer. -/
def identificationSizeQuery {σ : Type} (pfn : HWC2_PFN_GET_DISPLAY_IDENTIFICATION_DATA σ)
    (display : Display) (outPort : Nat) (state : σ) : IdentificationReply × σ :=
  pfn display outPort 0 none state

/-- The reply and the driver state after the fill call that follows a size query: the
port and size the query left behind and `data()` of a zeroed vector of that size, which
is a null pointer when the queried size is zero. -/
def identificationFill {σ : Type} (pfn : HWC2_PFN_GET_DISPLAY_IDENTIFICATION_DATA σ)
    (display : Display) (outPort : Nat) (state : σ) : IdentificationReply × σ :=
  pfn display (identificationSizeQuery pfn display outPort state).1.outPort
    (toUInt32 (identificationSizeQuery pfn display outPort state).1.outSize)
    (vectorData
      (List.replicate (toUInt32 (identificationSizeQuery pfn display outPort state).1.outSize) 0))
    (identificationSizeQuery pfn display outPort state).2

/-- A driver for `getDisplayIdentificationData` that tells a null data pointer from a
non-null one. With a null pointer it reports four bytes, or none at all on display 3,
and fails with code 2 on display 1. With a buffer it stores `7, 8, 9, 10` and reports
three bytes, and fails with code 6 on displays 2 and 3. -/
def edidDriver : HWC2_PFN_GET_DISPLAY_IDENTIFICATION_DATA Nat :=
  fun display _ _ outData s =>
    match outData with
    | none => (⟨if display = 1 then 2 else 0, 3, if display = 3 then 0 else 4, []⟩, s + 1)
    | some _ => (⟨if display = 2 ∨ display = 3 then 6 else 0, 3, 3, [7, 8, 9, 10]⟩, s + 1)

/-- An object whose table holds `edidDriver`. -/
def edidHal : HwcHalImpl Nat :=
  { mDevice := bareDevice
    mDispatch := { Dispatch.empty Nat with getDisplayIdentificationData := some edidDriver } }

/-- The reply and the driver state after the size query that `getDisplayCapabilities`
makes first: count zero, null pointer. -/
def capabilitiesSizeQuery {σ : Type} (pfn : HWC2_PFN_GET_DISPLAY_CAPABILITIES σ)
    (display : Display) (state : σ) : CapabilitiesReply × σ :=
  pfn display 0 none state

/-- The reply and the driver state after the fill call that follows a size query: the
count the query left behind and the caller's vector resized to that count. -/
def capabilitiesFill {σ : Type} (pfn : HWC2_PFN_GET_DISPLAY_CAPABILITIES σ)
    (display : Display) (outCapabilities : List Nat) (state : σ) : CapabilitiesReply × σ :=
  pfn display (toUInt32 (capabilitiesSizeQuery pfn display state).1.outCount)
    (some (resize outCapabilities (toUInt32 (capabilitiesSizeQuery pfn display state).1.outCount)))
    (capabilitiesSizeQuery pfn display state).2

/-- A driver for `getDisplayCapabilities`. On display 0 the size query reports three
capabilities and the fill call stores `5, 6` and reports two; on display 1 the size query
fails with code 2; on display 2 the fill call fails with code 6 after storing `5, 6`. -/
def capabilitiesDriver : HWC2_PFN_GET_DISPLAY_CAPABILITIES Nat :=
  fun display _ outCapabilities s =>
    match outCapabilities with
    | none => (⟨if display = 1 then 2 else 0, 3, []⟩, s + 1)
    | some _ => (⟨if display = 2 then 6 else 0, 2, [5, 6]⟩, s + 1)

/-- An object whose table holds `capabilitiesDriver`. -/
def capabilitiesHal : HwcHalImpl Nat :=
  { mDevice := bareDevice
    mDispatch := { Dispatch.empty Nat with getDisplayCapabilities := some capabilitiesDriver } }

/-- A 2.2 base class whose initialization succeeds, which reports three metadata keys and
answers the other calls with the underlying value of the enum it was given. -/
def sampleBase : BaseType2_2 Nat :=
  { initDispatch := fun dev => (true, dev)
    getPerFrameMetadataKeys := fun _ _ dev => ((0, [⟨1⟩, ⟨2⟩, ⟨5⟩]), dev)
    setColorMode_2_2 := fun _ mode _ dev => (mode.val, dev)
    getRenderIntents := fun _ mode _ dev => ((mode.val, [⟨0⟩, ⟨1⟩]), dev)
    getClientTargetSupport_2_2 := fun _ _ _ format dataspace dev =>
      (format.val + dataspace.val, dev) }

/-- A 2.2 base class whose initialization fails and whose key query fails with code 2
after having stored a key. -/
def failingBase : BaseType2_2 Nat :=
  { sampleBase with
    initDispatch := fun dev => (false, dev)
    getPerFrameMetadataKeys := fun _ _ dev => ((2, [⟨1⟩]), dev) }

/-- A driver that provides two of the seven optional entry points. -/
def partialDevice : hwc2_device Nat :=
  { state := 0
    getFunction :=
      { Dispatch.empty Nat with
        setLayerColorTransform := some fun _ _ _ s => (0, s + 1)
        getDisplayCapabilities := some fun _ _ _ s => (⟨0, 0, []⟩, s + 1) }
    calls := []
    lookups := [] }

/-- An object on `partialDevice` before initialization: `mDispatch = {}`. -/
def partialHal : HwcHalImpl Nat :=
  { mDevice := partialDevice, mDispatch := Dispatch.empty Nat }

end HwcHal

namespace Evs

/-! ## Camera session: data declared in `EvsCamera.h` -/

/-- The enum `EvsCamera::StreamStateValues`. -/
inductive StreamStateValues where
  | STOPPED
  | RUNNING
  | STOPPING
  | DEAD
deriving DecidableEq, Repr

/-- The struct `EvsCamera::BufferRecord`: a graphics-memory handle and the in-use flag. -/
structure BufferRecord where
  handle : Nat
  inUse : Bool
deriving DecidableEq, Repr

/-- The constructor `BufferRecord(buffer_handle_t h)`: the record starts idle. -/
def BufferRecord.new (h : Nat) : BufferRecord := { handle := h, inUse := false }

/-- Modelled from the spec: the result codes of the interface (`V1_0::EvsResult` is
declared outside this excerpt), following the error taxonomy of the spec: invalid-argument,
invalid-state, unsupported, resource-exhausted, ownership-denied, unavailable. -/
inductive EvsResult where
  | OK
  | INVALID_ARG
  | INVALID_STATE
  | UNSUPPORTED
  | RESOURCE_EXHAUSTED
  | OWNERSHIP_DENIED
  | UNAVAILABLE
deriving DecidableEq, Repr

/-- What the session pushes to the registered consumer (ghost log): a frame in the buffer
with the given index, or the terminal stream-ended notification. -/
inductive Notification where
  | frame (bufferId : Nat)
  | streamEnded
deriving DecidableEq, Repr

/-- The members of `EvsCamera` that the session logic reads or writes: `mDescription`
(declared `= {}`), `mStream` (`none` is `nullptr`), `mBuffers`, `mFramesAllowed`,
`mFramesInUse`, `mStreamState`, `mExtInfo`, `mParams`; next to them the holder of master
control and the pause flag that the spec describes, and the ghost log of what was
delivered to the consumer. -/
structure EvsCamera where
  mDescription : Nat := 0
  mStream : Option Nat
  mBuffers : List BufferRecord
  mFramesAllowed : Nat
  mFramesInUse : Nat
  mStreamState : StreamStateValues
  mExtInfo : List (Nat × List Nat)
  mParams : List (Nat × Int)
  master : Option Nat
  paused : Bool
  delivered : List Notification
deriving DecidableEq, Repr

/-- Number of buffer records whose in-use flag is set. -/
def inUseCount (bufs : List BufferRecord) : Nat := bufs.countP (fun r => r.inUse)

/-! ## Camera session: operations, modelled from the spec

`EvsCamera.cpp` is not part of this excerpt; the bodies below follow section 4.1 of the
specification. -/

/-- Modelled from the spec: the body of `EvsCamera::Create` is missing. A session is
created stopped, without consumer, with a pool of buffers allocated up front (one idle
record per handle) and no frame outstanding. -/
def Create (handles : List Nat) : EvsCamera :=
  { mStream := none
    mBuffers := handles.map BufferRecord.new
    mFramesAllowed := handles.length
    mFramesInUse := 0
    mStreamState := .STOPPED
    mExtInfo := []
    mParams := []
    master := none
    paused := false
    delivered := [] }

/-- Modelled from the spec: allocation of `n` fresh buffers from graphics memory, which is
outside this excerpt; `alloc i` is the handle of the `i`-th allocation or `none` when it
fails, and the whole request fails when one allocation fails. -/
def allocate (alloc : Nat → Option Nat) : Nat → Option (List BufferRecord)
  | 0 => some []
  | n + 1 =>
    match allocate alloc n, alloc n with
    | some bufs, some h => some (bufs ++ [BufferRecord.new h])
    | _, _ => none

/-- Modelled from the spec: the body of `setAvailableFrames_Locked` is missing.
"Constrained to be called only while no frames are outstanding; fails (no-op, returns
false) otherwise. Resizing reallocates the buffer pool to exactly n entries, each freshly
allocated"; on allocation failure "the pool is left at its last successfully-sized
state". -/
def setAvailableFrames_Locked (alloc : Nat → Option Nat) (s : EvsCamera) (bufferCount : Nat) :
    Bool × EvsCamera :=
  if 0 < s.mFramesInUse then
    (false, s)
  else
    match allocate alloc bufferCount with
    | none => (false, s)
    | some bufs => (true, { s with mBuffers := bufs, mFramesAllowed := bufferCount })

/-- Modelled from the spec: the body of `setMaxFramesInFlight` is missing. Any call
in the Dead state signals unavailable; a resize attempted while frames are outstanding
(or whose allocation fails) is reported as resource-exhausted. -/
def setMaxFramesInFlight (alloc : Nat → Option Nat) (s : EvsCamera) (bufferCount : Nat) :
    EvsResult × EvsCamera :=
  if s.mStreamState = .DEAD then
    (.UNAVAILABLE, s)
  else
    let r := setAvailableFrames_Locked alloc s bufferCount
    if r.1 then (.OK, r.2) else (.RESOURCE_EXHAUSTED, r.2)

/-- Modelled from the spec: the body of `startVideoStream` is missing. "Consumer
reference must be non-null; state must currently be Stopped. Effect: stores the consumer
reference, transitions state to Running, and spawns the frame-production task. Returns a
not-supported/invalid-argument signal if a consumer is already registered or state is
not Stopped." -/
def startVideoStream (s : EvsCamera) (stream : Option Nat) : EvsResult × EvsCamera :=
  if s.mStreamState = .DEAD then
    (.UNAVAILABLE, s)
  else
    match stream with
    | none => (.INVALID_ARG, s)
    | some consumer =>
      if s.mStream.isSome ∨ s.mStreamState ≠ .STOPPED then
        (.UNSUPPORTED, s)
      else
        (.OK, { s with mStream := some consumer, mStreamState := .RUNNING })

/-- Modelled from the spec: the body of `stopVideoStream` is missing. "State must be
Running (or Stopping - idempotent no-op). Effect: transitions state to Stopping; does not
block the caller." The call returns no result code. -/
def stopVideoStream (s : EvsCamera) : EvsCamera :=
  if s.mStreamState = .RUNNING then
    { s with mStreamState := .STOPPING }
  else
    s

/-- Modelled from the spec: step 1 and 2 of the frame-production task, "find an idle
buffer; if none is available, skip this cycle", "mark the chosen buffer in-use": the
index of the first idle record and the pool with that record marked, or `none`. -/
def markFirstIdle : List BufferRecord → Option (Nat × List BufferRecord)
  | [] => none
  | r :: rs =>
    if r.inUse then
      (markFirstIdle rs).map fun p => (p.1 + 1, r :: p.2)
    else
      some (0, { r with inUse := true } :: rs)

/-- Modelled from the spec: the body of `generateFrames` is missing; this is one
iteration of the frame-production task. While the state is Running it marks an idle buffer
in-use and delivers it, or drops the frame when no buffer is idle; on observing Stopping it
delivers the stream-ended notification and transitions to Stopped; in the other two
states no task is running. -/
def generateFrames (s : EvsCamera) : EvsCamera :=
  match s.mStreamState with
  | .RUNNING =>
    match markFirstIdle s.mBuffers with
    | none => s
    | some p =>
      { s with
        mBuffers := p.2
        mFramesInUse := s.mFramesInUse + 1
        delivered := s.delivered ++ [.frame p.1] }
  | .STOPPING => { s with mStreamState := .STOPPED, delivered := s.delivered ++ [.streamEnded] }
  | .STOPPED => s
  | .DEAD => s

/-- Modelled from the spec: "id must correspond to a currently in-use buffer from this
session's pool. Effect: marks the buffer idle again": the pool with the record at index
`bufferId` marked idle, or `none` for an unknown or already idle id. -/
def markIdle : List BufferRecord → Nat → Option (List BufferRecord)
  | [], _ => none
  | r :: rs, 0 => if r.inUse then some ({ r with inUse := false } :: rs) else none
  | r :: rs, i + 1 => (markIdle rs i).map fun rs => r :: rs

/-- Modelled from the spec: the body of `returnBufferLocked` is missing. A buffer that is
in use becomes idle and is no longer counted as outstanding; an unknown or idle id
changes nothing and is reported with `false`. -/
def returnBufferLocked (s : EvsCamera) (bufferId : Nat) : Bool × EvsCamera :=
  match markIdle s.mBuffers bufferId with
  | none => (false, s)
  | some bufs => (true, { s with mBuffers := bufs, mFramesInUse := s.mFramesInUse - 1 })

/-- Modelled from the spec: the body of `doneWithFrame` is missing. The call returns no
result code; after forced shutdown it is a no-op. -/
def doneWithFrame (s : EvsCamera) (bufferId : Nat) : EvsCamera :=
  if s.mStreamState = .DEAD then s else (returnBufferLocked s bufferId).2

/-- Modelled from the spec: the body of `doneWithFrame_1_1` is missing. The batched form
returns every listed buffer and ignores "ids not currently in-use". -/
def doneWithFrame_1_1 (s : EvsCamera) (buffers : List Nat) : EvsResult × EvsCamera :=
  if s.mStreamState = .DEAD then
    (.UNAVAILABLE, s)
  else
    (.OK, buffers.foldl (fun s bufferId => (returnBufferLocked s bufferId).2) s)

/-- Modelled from the spec: the body of `pauseVideoStream` is missing. "Transitions
Running to paused-equivalent without relinquishing consumer registration or buffer pool;
fails if called outside Running." -/
def pauseVideoStream (s : EvsCamera) : EvsResult × EvsCamera :=
  if s.mStreamState = .DEAD then (.UNAVAILABLE, s)
  else if s.mStreamState ≠ .RUNNING then (.INVALID_STATE, s)
  else (.OK, { s with paused := true })

/-- Modelled from the spec: the body of `resumeVideoStream` is missing; the converse of
`pauseVideoStream`. -/
def resumeVideoStream (s : EvsCamera) : EvsResult × EvsCamera :=
  if s.mStreamState = .DEAD then (.UNAVAILABLE, s)
  else if s.mStreamState ≠ .RUNNING then (.INVALID_STATE, s)
  else (.OK, { s with paused := false })

/-- Modelled from the spec: the body of `setMaster` is missing. "At most one external
caller may hold master control of a session at a time." -/
def setMaster (s : EvsCamera) (caller : Nat) : EvsResult × EvsCamera :=
  if s.mStreamState = .DEAD then (.UNAVAILABLE, s)
  else
    match s.master with
    | none => (.OK, { s with master := some caller })
    | some holder => if holder = caller then (.OK, s) else (.OWNERSHIP_DENIED, s)

/-- Modelled from the spec: the body of `forceMaster` is missing. It "unconditionally
reassigns master status (displacing the current holder)" to the caller associated with
the display. -/
def forceMaster (s : EvsCamera) (display : Nat) : EvsResult × EvsCamera :=
  if s.mStreamState = .DEAD then (.UNAVAILABLE, s)
  else (.OK, { s with master := some display })

/-- Modelled from the spec: the body of `unsetMaster` is missing. A caller that does not
hold master control receives ownership-denied. -/
def unsetMaster (s : EvsCamera) (caller : Nat) : EvsResult × EvsCamera :=
  if s.mStreamState = .DEAD then (.UNAVAILABLE, s)
  else if s.master = some caller then (.OK, { s with master := none })
  else (.OWNERSHIP_DENIED, s)

/-- Modelled from the spec: the body of `setIntParameter` is missing. "Plain key to value
get/set"; a master-only operation. -/
def setIntParameter (s : EvsCamera) (caller : Nat) (id : Nat) (value : Int) :
    EvsResult × EvsCamera :=
  if s.mStreamState = .DEAD then (.UNAVAILABLE, s)
  else if s.master ≠ some caller then (.OWNERSHIP_DENIED, s)
  else (.OK, { s with mParams := (id, value) :: s.mParams.filter fun p => p.1 ≠ id })

/-- Modelled from the spec: the body of `getIntParameter` is missing. "Get on a missing
key signals not-found." -/
def getIntParameter (s : EvsCamera) (id : Nat) : EvsResult × Option Int :=
  if s.mStreamState = .DEAD then (.UNAVAILABLE, none)
  else
    match s.mParams.lookup id with
    | none => (.INVALID_ARG, none)
    | some v => (.OK, some v)

/-- Modelled from the spec: the body of `setExtendedInfo_1_1` is missing. "Plain key to
value get/set" over the map of opaque byte blobs. -/
def setExtendedInfo_1_1 (s : EvsCamera) (opaqueIdentifier : Nat) (opaqueValue : List Nat) :
    EvsResult × EvsCamera :=
  if s.mStreamState = .DEAD then (.UNAVAILABLE, s)
  else
    (.OK, { s with
      mExtInfo := (opaqueIdentifier, opaqueValue) ::
        s.mExtInfo.filter fun p => p.1 ≠ opaqueIdentifier })

/-- Modelled from the spec: the body of `getExtendedInfo_1_1` is missing. "Get on a
missing key signals not-found." -/
def getExtendedInfo_1_1 (s : EvsCamera) (opaqueIdentifier : Nat) :
    EvsResult × Option (List Nat) :=
  if s.mStreamState = .DEAD then (.UNAVAILABLE, none)
  else
    match s.mExtInfo.lookup opaqueIdentifier with
    | none => (.INVALID_ARG, none)
    | some v => (.OK, some v)

/-- The inline member `getDesc`: the description of this camera. -/
def getDesc (s : EvsCamera) : Nat := s.mDescription

/-- Modelled from the spec: the body of `getCameraInfo` is missing. The session holds a
"static capability description", which the call hands back; it has no result code and
reads the session only. -/
def getCameraInfo (s : EvsCamera) : Nat := getDesc s

/-- Modelled from the spec: the body of `getCameraInfo_1_1` is missing; the 1.1 form of
`getCameraInfo`, with no result code, reading the session only. -/
def getCameraInfo_1_1 (s : EvsCamera) : Nat := getDesc s

/-- Modelled from the spec: the body of `getPhysicalCameraInfo` is missing. The session
"represents one logical camera device" with one description, which is handed back for
every `id`; the call has no result code and reads the session only. -/
def getPhysicalCameraInfo (s : EvsCamera) (_id : Nat) : Nat := getDesc s

/-- Modelled from the spec: the body of `getParameterList` is missing. The keys of the
map "parameter-id to integer value"; the call has no result code and reads the session
only. -/
def getParameterList (s : EvsCamera) : List Nat := s.mParams.map fun p => p.1

/-- Modelled from the spec: the body of `getIntParameterRange` is missing. The spec gives
the parameter map values and no ranges, so the reply (minimum, maximum, step) is the
empty range; the call has no result code and reads nothing. -/
def getIntParameterRange (_s : EvsCamera) (_id : Nat) : Int × Int × Int := (0, 0, 0)

/-- Modelled from the spec: the body of `setExtendedInfo` is missing. The 1.0 form of the
"plain key to value" set over the map of opaque blobs: the 32-bit value is stored as a
blob of one word. -/
def setExtendedInfo (s : EvsCamera) (opaqueIdentifier : Nat) (opaqueValue : Int) :
    EvsResult × EvsCamera :=
  setExtendedInfo_1_1 s opaqueIdentifier [(opaqueValue % 2 ^ 32).toNat]

/-- Modelled from the spec: the body of `getExtendedInfo` is missing. The 1.0 form of the
"plain key to value" get: the first word of the stored blob read as a 32-bit value. The
call returns a value and no result code, so a missing key, like a session after forced
shutdown, is answered with 0. -/
def getExtendedInfo (s : EvsCamera) (opaqueIdentifier : Nat) : Int :=
  if s.mStreamState = .DEAD then 0
  else
    match s.mExtInfo.lookup opaqueIdentifier with
    | some (word :: _) => HwcHal.toInt32 word
    | _ => 0

/-- Modelled from the spec: the body of `importExternalBuffers` is missing. The spec
describes a pool that is sized through `setAvailableFrames` only and gives importing no
effect: after forced shutdown the call signals unavailable, otherwise unsupported, and in
both cases no buffer is added (delta 0) and the session is not touched. -/
def importExternalBuffers (s : EvsCamera) (_buffers : List Nat) : EvsResult × Int :=
  if s.mStreamState = .DEAD then (.UNAVAILABLE, 0) else (.UNSUPPORTED, 0)

/-- Modelled from the spec: the body of `forceShutdown` is missing. It "unconditionally
stops the production task (blocking join), releases all buffers, sets state to Dead, and
invalidates the session for all future calls". The configured pool size is left as it is
("the pool size can only be changed while no frames are in flight"). -/
def forceShutdown (s : EvsCamera) : EvsCamera :=
  { s with mBuffers := [], mFramesInUse := 0, mStreamState := .DEAD }

/-- The calls of the interface, one for each of the 22 methods that `EvsCamera.h`
overrides, with their arguments; `caller` identifies the client where the spec
distinguishes callers. -/
inductive ApiCall where
  | getCameraInfo
  | getExtendedInfo (opaqueIdentifier : Nat)
  | setExtendedInfo (opaqueIdentifier : Nat) (opaqueValue : Int)
  | getCameraInfo_1_1
  | getPhysicalCameraInfo (id : Nat)
  | getParameterList
  | getIntParameterRange (id : Nat)
  | importExternalBuffers (buffers : List Nat)
  | setMaxFramesInFlight (bufferCount : Nat)
  | startVideoStream (stream : Option Nat)
  | stopVideoStream
  | doneWithFrame (bufferId : Nat)
  | pauseVideoStream
  | resumeVideoStream
  | doneWithFrame_1_1 (buffers : List Nat)
  | setMaster (caller : Nat)
  | forceMaster (display : Nat)
  | unsetMaster (caller : Nat)
  | setIntParameter (caller id : Nat) (value : Int)
  | getIntParameter (id : Nat)
  | setExtendedInfo_1_1 (opaqueIdentifier : Nat) (opaqueValue : List Nat)
  | getExtendedInfo_1_1 (opaqueIdentifier : Nat)
deriving DecidableEq, Repr

/-- Result code (`none` for a call that returns no result code) and session after one
call of the interface. A call whose model returns a reply and no session cannot change
the session. -/
def ApiCall.run (alloc : Nat → Option Nat) (s : EvsCamera) : ApiCall → Option EvsResult × EvsCamera
  | .getCameraInfo => (none, s)
  | .getExtendedInfo _ => (none, s)
  | .setExtendedInfo id value =>
    (some (Evs.setExtendedInfo s id value).1, (Evs.setExtendedInfo s id value).2)
  | .getCameraInfo_1_1 => (none, s)
  | .getPhysicalCameraInfo _ => (none, s)
  | .getParameterList => (none, s)
  | .getIntParameterRange _ => (none, s)
  | .importExternalBuffers buffers => (some (Evs.importExternalBuffers s buffers).1, s)
  | .setMaxFramesInFlight n =>
    (some (Evs.setMaxFramesInFlight alloc s n).1, (Evs.setMaxFramesInFlight alloc s n).2)
  | .startVideoStream stream =>
    (some (Evs.startVideoStream s stream).1, (Evs.startVideoStream s stream).2)
  | .stopVideoStream => (none, Evs.stopVideoStream s)
  | .doneWithFrame bufferId => (none, Evs.doneWithFrame s bufferId)
  | .pauseVideoStream => (some (Evs.pauseVideoStream s).1, (Evs.pauseVideoStream s).2)
  | .resumeVideoStream =>
    (some (Evs.resumeVideoStream s).1, (Evs.resumeVideoStream s).2)
  | .doneWithFrame_1_1 buffers =>
    (some (Evs.doneWithFrame_1_1 s buffers).1, (Evs.doneWithFrame_1_1 s buffers).2)
  | .setMaster caller => (some (Evs.setMaster s caller).1, (Evs.setMaster s caller).2)
  | .forceMaster display =>
    (some (Evs.forceMaster s display).1, (Evs.forceMaster s display).2)
  | .unsetMaster caller =>
    (some (Evs.unsetMaster s caller).1, (Evs.unsetMaster s caller).2)
  | .setIntParameter caller id value =>
    (some (Evs.setIntParameter s caller id value).1,
      (Evs.setIntParameter s caller id value).2)
  | .getIntParameter id => (some (Evs.getIntParameter s id).1, s)
  | .setExtendedInfo_1_1 id value =>
    (some (Evs.setExtendedInfo_1_1 s id value).1, (Evs.setExtendedInfo_1_1 s id value).2)
  | .getExtendedInfo_1_1 id => (some (Evs.getExtendedInfo_1_1 s id).1, s)

/-- Everything that can happen to a session: a call of the interface, one iteration of
the frame-production task, or the forced shutdown by the enumerator. -/
inductive Event where
  | api (call : ApiCall)
  | generateFrames
  | forceShutdown
deriving DecidableEq, Repr

/-- Session after one event. -/
def step (alloc : Nat → Option Nat) (s : EvsCamera) : Event → EvsCamera
  | .api call => (call.run alloc s).2
  | .generateFrames => generateFrames s
  | .forceShutdown => forceShutdown s

/-- Session after a sequence of events, oldest first. -/
def run (alloc : Nat → Option Nat) (s : EvsCamera) (events : List Event) : EvsCamera :=
  events.foldl (step alloc) s

/-- The edges of the stream state graph that the spec allows: Stopped to Running, Running to
Stopping, Stopping to Stopped, and any state to Dead. -/
def allowedEdge : StreamStateValues → StreamStateValues → Bool
  | .STOPPED, .RUNNING => true
  | .RUNNING, .STOPPING => true
  | .STOPPING, .STOPPED => true
  | _, .DEAD => true
  | _, _ => false

/-- Bookkeeping invariant of the pool: `mFramesInUse` counts the records that are in use
and the pool holds at most `mFramesAllowed` records. -/
def PoolInv (s : EvsCamera) : Prop :=
  s.mFramesInUse = inUseCount s.mBuffers ∧ s.mBuffers.length ≤ s.mFramesAllowed

/-- An allocator that never fails: the `i`-th buffer gets handle `100 + i`. -/
def plentifulAlloc (i : Nat) : Option Nat := some (100 + i)

/-- A session with a pool of two buffers in which the stream was started and the
frame-production task has delivered one frame, so that one buffer is in use. -/
def oneFrameOut : EvsCamera :=
  run plentifulAlloc (Create [10, 11]) [.api (.startVideoStream (some 1)), .generateFrames]

/-- The session `oneFrameOut` after a forced shutdown followed by an attempt to start the
stream again, an iteration of the frame-production task, a request for three buffers and
the return of buffer 0. -/
def afterShutdown : EvsCamera :=
  run plentifulAlloc (forceShutdown oneFrameOut)
    [.api (.startVideoStream (some 2)), .generateFrames, .api (.setMaxFramesInFlight 3),
      .api (.doneWithFrame 0)]

end Evs

/-! # Properties -/

namespace HwcHal

/-! ## Optional operations with a null dispatch entry -/

/-- C1: each of the seven optional operations, when its dispatch entry is null, returns
`Error::UNSUPPORTED`, hands back every output argument with its prior contents and leaves
the object, the driver state and the log of driver calls as they were, whatever the
arguments. -/
theorem optional_null_entry_unsupported {σ : Type} (k : Constants) (hal : HwcHalImpl σ) :
    (hal.mDispatch.getDisplayIdentificationData = none →
      ∀ display outPort outData,
        getDisplayIdentificationData k hal display outPort outData
          = { error := k.UNSUPPORTED, out := ⟨outPort, outData⟩, hal := hal }) ∧
    (hal.mDispatch.setLayerColorTransform = none →
      ∀ display layer matrix,
        setLayerColorTransform k hal display layer matrix
          = { error := k.UNSUPPORTED, out := (), hal := hal }) ∧
    (hal.mDispatch.getDisplayedContentSamplingAttributes = none →
      ∀ display format dataspace componentMask,
        getDisplayedContentSamplingAttributes k hal display format dataspace componentMask
          = { error := k.UNSUPPORTED, out := ⟨format, dataspace, componentMask⟩, hal := hal }) ∧
    (hal.mDispatch.setDisplayedContentSamplingEnabled = none →
      ∀ display enable componentMask maxFrames,
        setDisplayedContentSamplingEnabled k hal display enable componentMask maxFrames
          = { error := k.UNSUPPORTED, out := (), hal := hal }) ∧
    (hal.mDispatch.getDisplayedContentSample = none →
      ∀ display maxFrames timestamp out,
        getDisplayedContentSample k hal display maxFrames timestamp out
          = { error := k.UNSUPPORTED, out := out, hal := hal }) ∧
    (hal.mDispatch.getDisplayCapabilities = none →
      ∀ display outCapabilities,
        getDisplayCapabilities k hal display outCapabilities
          = { error := k.UNSUPPORTED, out := outCapabilities, hal := hal }) ∧
    (hal.mDispatch.setLayerPerFrameMetadataBlobs = none →
      ∀ display layer metadata,
        setLayerPerFrameMetadataBlobs k hal display layer metadata
          = some { error := k.UNSUPPORTED, out := (), hal := hal }) := by
  refine ⟨?_, ?_, ?_, ?_, ?_, ?_, ?_⟩
  · intro h display outPort outData
    simp only [getDisplayIdentificationData, h]
  · intro h display layer matrix
    simp only [setLayerColorTransform, h]
  · intro h display format dataspace componentMask
    simp only [getDisplayedContentSamplingAttributes, h]
  · intro h display enable componentMask maxFrames
    simp only [setDisplayedContentSamplingEnabled, h]
  · intro h display maxFrames timestamp out
    simp only [getDisplayedContentSample, h]
  · intro h display outCapabilities
    simp only [getDisplayCapabilities, h]
  · intro h display layer metadata
    simp only [setLayerPerFrameMetadataBlobs, h]

/-- Witness of C1 on an object whose table is all null: result code 8, outputs as passed
in, no driver call logged. -/
theorem optional_null_entry_unsupported_witness :
    (getDisplayIdentificationData androidConstants bareHal 1 7 [1, 2]).error = 8 ∧
    (getDisplayIdentificationData androidConstants bareHal 1 7 [1, 2]).out = ⟨7, [1, 2]⟩ ∧
    (getDisplayIdentificationData androidConstants bareHal 1 7 [1, 2]).hal.mDevice.calls = [] ∧
    (setLayerColorTransform androidConstants bareHal 1 2 [0]).error = 8 ∧
    (getDisplayedContentSamplingAttributes androidConstants bareHal 1 ⟨3⟩ ⟨4⟩ 5).out
      = ⟨⟨3⟩, ⟨4⟩, 5⟩ ∧
    (setDisplayedContentSamplingEnabled androidConstants bareHal 1 1 15 0).error = 8 ∧
    (getDisplayedContentSample androidConstants bareHal 1 0 0 ⟨9, [1], [2], [3], [4]⟩).out
      = ⟨9, [1], [2], [3], [4]⟩ ∧
    (getDisplayCapabilities androidConstants bareHal 1 [6, 7]).out = [6, 7] ∧
    (setLayerPerFrameMetadataBlobs androidConstants bareHal 1 2 [⟨⟨0⟩, [1, 2, 3]⟩]).map
      (fun r => (r.error, r.hal.mDevice.calls)) = some (8, []) := by
  have h := optional_null_entry_unsupported androidConstants bareHal
  refine ⟨?_, ?_, ?_, ?_, ?_, ?_, ?_, ?_, ?_⟩
  · rw [h.1 rfl]; rfl
  · rw [h.1 rfl]
  · rw [h.1 rfl]; rfl
  · rw [h.2.1 rfl]; rfl
  · rw [h.2.2.1 rfl]
  · rw [h.2.2.2.1 rfl]; rfl
  · rw [h.2.2.2.2.1 rfl]
  · rw [h.2.2.2.2.2.1 rfl]
  · rw [h.2.2.2.2.2.2 rfl]; rfl

end HwcHal

namespace Evs

/-! ## Stream state graph -/

/-- Returning a buffer does not touch the stream state. -/
theorem returnBufferLocked_streamState (s : EvsCamera) (bufferId : Nat) :
    (returnBufferLocked s bufferId).2.mStreamState = s.mStreamState := by
  unfold returnBufferLocked
  cases markIdle s.mBuffers bufferId <;> rfl

/-- Returning a batch of buffers does not touch the stream state. -/
theorem returnAll_streamState (buffers : List Nat) (s : EvsCamera) :
    (buffers.foldl (fun s bufferId => (returnBufferLocked s bufferId).2) s).mStreamState
      = s.mStreamState := by
  induction buffers generalizing s with
  | nil => rfl
  | cons b bs ih => rw [List.foldl_cons, ih, returnBufferLocked_streamState]

/-- Resizing the pool does not touch the stream state. -/
theorem setAvailableFrames_Locked_streamState (alloc : Nat → Option Nat) (s : EvsCamera)
    (n : Nat) : (setAvailableFrames_Locked alloc s n).2.mStreamState = s.mStreamState := by
  unfold setAvailableFrames_Locked
  split
  · rfl
  · cases allocate alloc n <;> rfl

/-- A call of the interface either keeps the stream state or follows an allowed edge. -/
theorem api_edge (alloc : Nat → Option Nat) (s : EvsCamera) (call : ApiCall) :
    (call.run alloc s).2.mStreamState = s.mStreamState ∨
      allowedEdge s.mStreamState (call.run alloc s).2.mStreamState = true := by
  cases call with
  | getCameraInfo => left; rfl
  | getExtendedInfo id => left; rfl
  | setExtendedInfo id value =>
    left
    simp only [ApiCall.run, setExtendedInfo, setExtendedInfo_1_1]
    split <;> rfl
  | getCameraInfo_1_1 => left; rfl
  | getPhysicalCameraInfo id => left; rfl
  | getParameterList => left; rfl
  | getIntParameterRange id => left; rfl
  | importExternalBuffers buffers => left; rfl
  | setMaxFramesInFlight n =>
    left
    simp only [ApiCall.run, setMaxFramesInFlight]
    split
    · rfl
    · split <;> exact setAvailableFrames_Locked_streamState alloc s n
  | startVideoStream stream =>
    simp only [ApiCall.run, startVideoStream]
    split
    · left; rfl
    · cases stream with
      | none => left; rfl
      | some c =>
        dsimp only
        split
        · left; rfl
        · rename_i h
          have hs : s.mStreamState = .STOPPED := by
            by_contra hne
            exact h (Or.inr hne)
          right
          simp [hs, allowedEdge]
  | stopVideoStream =>
    simp only [ApiCall.run, stopVideoStream]
    split
    · rename_i h
      right
      simp [h, allowedEdge]
    · left; rfl
  | doneWithFrame bufferId =>
    left
    simp only [ApiCall.run, doneWithFrame]
    split
    · rfl
    · exact returnBufferLocked_streamState s bufferId
  | pauseVideoStream =>
    left
    simp only [ApiCall.run, pauseVideoStream]
    split
    · rfl
    · split <;> rfl
  | resumeVideoStream =>
    left
    simp only [ApiCall.run, resumeVideoStream]
    split
    · rfl
    · split <;> rfl
  | doneWithFrame_1_1 buffers =>
    left
    simp only [ApiCall.run, doneWithFrame_1_1]
    split
    · rfl
    · exact returnAll_streamState buffers s
  | setMaster caller =>
    left
    simp only [ApiCall.run, setMaster]
    split
    · rfl
    · split
      · rfl
      · split <;> rfl
  | forceMaster display =>
    left
    simp only [ApiCall.run, forceMaster]
    split <;> rfl
  | unsetMaster caller =>
    left
    simp only [ApiCall.run, unsetMaster]
    split
    · rfl
    · split <;> rfl
  | setIntParameter caller id value =>
    left
    simp only [ApiCall.run, setIntParameter]
    split
    · rfl
    · split <;> rfl
  | getIntParameter id => left; rfl
  | setExtendedInfo_1_1 id value =>
    left
    simp only [ApiCall.run, setExtendedInfo_1_1]
    split <;> rfl
  | getExtendedInfo_1_1 id => left; rfl

/-- One iteration of the frame-production task either keeps the stream state or follows
an allowed edge. -/
theorem generateFrames_edge (s : EvsCamera) :
    (generateFrames s).mStreamState = s.mStreamState ∨
      allowedEdge s.mStreamState (generateFrames s).mStreamState = true := by
  unfold generateFrames
  split
  · left
    split <;> rfl
  · rename_i h
    right
    simp [h, allowedEdge]
  · left; rfl
  · left; rfl

/-- Any event either keeps the stream state or follows an allowed edge. -/
theorem step_edge (alloc : Nat → Option Nat) (s : EvsCamera) (e : Event) :
    (step alloc s e).mStreamState = s.mStreamState ∨
      allowedEdge s.mStreamState (step alloc s e).mStreamState = true := by
  cases e with
  | api call => exact api_edge alloc s call
  | generateFrames => exact generateFrames_edge s
  | forceShutdown =>
    right
    simp only [step, forceShutdown]
    cases s.mStreamState <;> rfl

/-- C2: from any session and after any sequence of events (calls of the interface, among
them startVideoStream and stopVideoStream, iterations of the frame-production task, forced
shutdowns), the next event either leaves the stream state as it is or moves it along one
of the edges Stopped to Running, Running to Stopping, Stopping to Stopped, any to Dead. -/
theorem stream_state_graph (alloc : Nat → Option Nat) (s0 : EvsCamera) (events : List Event)
    (e : Event) :
    (step alloc (run alloc s0 events) e).mStreamState = (run alloc s0 events).mStreamState ∨
      allowedEdge (run alloc s0 events).mStreamState
        (step alloc (run alloc s0 events) e).mStreamState = true :=
  step_edge alloc (run alloc s0 events) e

end Evs

namespace Evs

/-! ## Buffer pool bookkeeping -/

/-- No more records are in use than the pool holds. -/
theorem inUseCount_le_length (bufs : List BufferRecord) : inUseCount bufs ≤ bufs.length :=
  List.countP_le_length _

/-- A freshly created pool has no record in use. -/
theorem inUseCount_new (handles : List Nat) : inUseCount (handles.map BufferRecord.new) = 0 := by
  induction handles with
  | nil => rfl
  | cons h hs ih =>
    simp only [inUseCount] at ih
    simp [inUseCount, List.countP_cons, BufferRecord.new, ih]

/-- A successful allocation of `n` buffers yields exactly `n` idle records. -/
theorem allocate_spec (alloc : Nat → Option Nat) (n : Nat) (bufs : List BufferRecord)
    (h : allocate alloc n = some bufs) : bufs.length = n ∧ inUseCount bufs = 0 := by
  induction n generalizing bufs with
  | zero =>
    simp only [allocate, Option.some.injEq] at h
    subst h
    exact ⟨rfl, rfl⟩
  | succ n ih =>
    unfold allocate at h
    split at h
    · rename_i bs hd hb _
      simp only [Option.some.injEq] at h
      subst h
      obtain ⟨hl, hc⟩ := ih bs hb
      simp only [inUseCount] at hc
      refine ⟨by simp [hl], ?_⟩
      simp [inUseCount, List.countP_append, hc, BufferRecord.new]
    · exact absurd h (by simp)

/-- Marking the first idle record keeps the size of the pool and raises the number of
records in use by one. -/
theorem markFirstIdle_spec (bufs : List BufferRecord) (p : Nat × List BufferRecord)
    (h : markFirstIdle bufs = some p) :
    p.2.length = bufs.length ∧ inUseCount p.2 = inUseCount bufs + 1 := by
  induction bufs generalizing p with
  | nil => simp [markFirstIdle] at h
  | cons r rs ih =>
    unfold markFirstIdle at h
    by_cases hr : r.inUse = true
    · simp only [hr, if_true, Option.map_eq_some'] at h
      obtain ⟨q, hq, rfl⟩ := h
      obtain ⟨hl, hc⟩ := ih q hq
      simp only [inUseCount] at hc
      refine ⟨by simp [hl], ?_⟩
      simp [inUseCount, List.countP_cons, hr, hc]
    · simp only [hr, Bool.false_eq_true, if_false, Option.some.injEq] at h
      subst h
      refine ⟨by simp, ?_⟩
      simp [inUseCount, List.countP_cons, hr]

/-- Marking a record idle keeps the size of the pool and lowers the number of records in
use by one. -/
theorem markIdle_spec (bufs : List BufferRecord) (i : Nat) (bufs' : List BufferRecord)
    (h : markIdle bufs i = some bufs') :
    bufs'.length = bufs.length ∧ inUseCount bufs' + 1 = inUseCount bufs := by
  induction bufs generalizing i bufs' with
  | nil => simp [markIdle] at h
  | cons r rs ih =>
    cases i with
    | zero =>
      unfold markIdle at h
      by_cases hr : r.inUse = true
      · simp only [hr, if_true, Option.some.injEq] at h
        subst h
        refine ⟨by simp, ?_⟩
        simp [inUseCount, List.countP_cons, hr]
      · simp [hr] at h
    | succ j =>
      unfold markIdle at h
      simp only [Option.map_eq_some'] at h
      obtain ⟨q, hq, rfl⟩ := h
      obtain ⟨hl, hc⟩ := ih j q hq
      simp only [inUseCount] at hc
      refine ⟨by simp [hl], ?_⟩
      simp only [inUseCount, List.countP_cons]
      omega

/-- Resizing the pool keeps the bookkeeping invariant. -/
theorem setAvailableFrames_Locked_inv (alloc : Nat → Option Nat) (s : EvsCamera) (n : Nat)
    (h : PoolInv s) : PoolInv (setAvailableFrames_Locked alloc s n).2 := by
  unfold setAvailableFrames_Locked
  split
  · exact h
  · rename_i h0
    cases ha : allocate alloc n with
    | none => exact h
    | some bufs =>
      obtain ⟨hl, hc⟩ := allocate_spec alloc n bufs ha
      refine ⟨?_, ?_⟩
      · show s.mFramesInUse = inUseCount bufs
        omega
      · show bufs.length ≤ n
        omega

/-- Returning a buffer keeps the bookkeeping invariant. -/
theorem returnBufferLocked_inv (s : EvsCamera) (bufferId : Nat) (h : PoolInv s) :
    PoolInv (returnBufferLocked s bufferId).2 := by
  unfold returnBufferLocked
  cases hm : markIdle s.mBuffers bufferId with
  | none => exact h
  | some bufs =>
    obtain ⟨hl, hc⟩ := markIdle_spec s.mBuffers bufferId bufs hm
    obtain ⟨h1, h2⟩ := h
    refine ⟨?_, ?_⟩
    · show s.mFramesInUse - 1 = inUseCount bufs
      omega
    · show bufs.length ≤ s.mFramesAllowed
      omega

/-- Returning a batch of buffers keeps the bookkeeping invariant. -/
theorem returnAll_inv (buffers : List Nat) (s : EvsCamera) (h : PoolInv s) :
    PoolInv (buffers.foldl (fun s bufferId => (returnBufferLocked s bufferId).2) s) := by
  induction buffers generalizing s with
  | nil => exact h
  | cons b bs ih =>
    rw [List.foldl_cons]
    exact ih _ (returnBufferLocked_inv s b h)

/-- One iteration of the frame-production task keeps the bookkeeping invariant. -/
theorem generateFrames_inv (s : EvsCamera) (h : PoolInv s) : PoolInv (generateFrames s) := by
  unfold generateFrames
  split
  · cases hm : markFirstIdle s.mBuffers with
    | none => exact h
    | some p =>
      obtain ⟨hl, hc⟩ := markFirstIdle_spec s.mBuffers p hm
      obtain ⟨h1, h2⟩ := h
      refine ⟨?_, ?_⟩
      · show s.mFramesInUse + 1 = inUseCount p.2
        omega
      · show p.2.length ≤ s.mFramesAllowed
        omega
  · exact h
  · exact h
  · exact h

/-- Every call of the interface keeps the bookkeeping invariant. -/
theorem api_inv (alloc : Nat → Option Nat) (s : EvsCamera) (call : ApiCall) (h : PoolInv s) :
    PoolInv (call.run alloc s).2 := by
  cases call with
  | getCameraInfo => exact h
  | getExtendedInfo id => exact h
  | setExtendedInfo id value =>
    simp only [ApiCall.run, setExtendedInfo, setExtendedInfo_1_1]
    split <;> exact h
  | getCameraInfo_1_1 => exact h
  | getPhysicalCameraInfo id => exact h
  | getParameterList => exact h
  | getIntParameterRange id => exact h
  | importExternalBuffers buffers => exact h
  | setMaxFramesInFlight n =>
    simp only [ApiCall.run, setMaxFramesInFlight]
    split
    · exact h
    · split <;> exact setAvailableFrames_Locked_inv alloc s n h
  | startVideoStream stream =>
    simp only [ApiCall.run, startVideoStream]
    split
    · exact h
    · cases stream with
      | none => exact h
      | some c =>
        dsimp only
        split
        · exact h
        · exact h
  | stopVideoStream =>
    simp only [ApiCall.run, stopVideoStream]
    split
    · exact h
    · exact h
  | doneWithFrame bufferId =>
    simp only [ApiCall.run, doneWithFrame]
    split
    · exact h
    · exact returnBufferLocked_inv s bufferId h
  | pauseVideoStream =>
    simp only [ApiCall.run, pauseVideoStream]
    split
    · exact h
    · split <;> exact h
  | resumeVideoStream =>
    simp only [ApiCall.run, resumeVideoStream]
    split
    · exact h
    · split <;> exact h
  | doneWithFrame_1_1 buffers =>
    simp only [ApiCall.run, doneWithFrame_1_1]
    split
    · exact h
    · exact returnAll_inv buffers s h
  | setMaster caller =>
    simp only [ApiCall.run, setMaster]
    split
    · exact h
    · split
      · exact h
      · split <;> exact h
  | forceMaster display =>
    simp only [ApiCall.run, forceMaster]
    split <;> exact h
  | unsetMaster caller =>
    simp only [ApiCall.run, unsetMaster]
    split
    · exact h
    · split <;> exact h
  | setIntParameter caller id value =>
    simp only [ApiCall.run, setIntParameter]
    split
    · exact h
    · split <;> exact h
  | getIntParameter id => exact h
  | setExtendedInfo_1_1 id value =>
    simp only [ApiCall.run, setExtendedInfo_1_1]
    split <;> exact h
  | getExtendedInfo_1_1 id => exact h

/-- Every event keeps the bookkeeping invariant. -/
theorem step_inv (alloc : Nat → Option Nat) (s : EvsCamera) (e : Event) (h : PoolInv s) :
    PoolInv (step alloc s e) := by
  cases e with
  | api call => exact api_inv alloc s call h
  | generateFrames => exact generateFrames_inv s h
  | forceShutdown => exact ⟨rfl, Nat.zero_le _⟩

/-- A freshly created session satisfies the bookkeeping invariant. -/
theorem Create_inv (handles : List Nat) : PoolInv (Create handles) := by
  refine ⟨?_, ?_⟩
  · show 0 = inUseCount (handles.map BufferRecord.new)
    rw [inUseCount_new]
  · show (handles.map BufferRecord.new).length ≤ handles.length
    simp

/-- The bookkeeping invariant holds in every state reached from a state where it holds. -/
theorem run_inv (alloc : Nat → Option Nat) (events : List Event) (s : EvsCamera)
    (h : PoolInv s) : PoolInv (run alloc s events) := by
  induction events generalizing s with
  | nil => exact h
  | cons e es ih => exact ih _ (step_inv alloc s e h)

/-- C3: in every state reached from a freshly created session by any interleaving of
interface calls (among them doneWithFrame and doneWithFrame_1_1), iterations of the
frame-production task and forced shutdowns, `mFramesInUse` equals the number of buffer
records with `inUse` set and does not exceed the configured pool size `mFramesAllowed`. -/
theorem framesInUse_le_framesAllowed (alloc : Nat → Option Nat) (handles : List Nat)
    (events : List Event) :
    (run alloc (Create handles) events).mFramesInUse
        = inUseCount (run alloc (Create handles) events).mBuffers ∧
      (run alloc (Create handles) events).mFramesInUse
        ≤ (run alloc (Create handles) events).mFramesAllowed ∧
      inUseCount (run alloc (Create handles) events).mBuffers
        ≤ (run alloc (Create handles) events).mFramesAllowed := by
  obtain ⟨h1, h2⟩ := run_inv alloc events (Create handles) (Create_inv handles)
  have h3 := inUseCount_le_length (run alloc (Create handles) events).mBuffers
  refine ⟨h1, ?_, ?_⟩ <;> omega

end Evs

namespace Evs

/-! ## Pool sizing while frames are outstanding -/

/-- A record in use makes the number of records in use positive. -/
theorem inUseCount_pos (bufs : List BufferRecord) (h : ∃ r ∈ bufs, r.inUse = true) :
    0 < inUseCount bufs := by
  obtain ⟨r, hr, hu⟩ := h
  exact List.countP_pos_iff.mpr ⟨r, hr, hu⟩

/-- With a frame outstanding the resize fails and changes nothing. -/
theorem setAvailableFrames_Locked_busy (alloc : Nat → Option Nat) (s : EvsCamera) (n : Nat)
    (h : 0 < s.mFramesInUse) : setAvailableFrames_Locked alloc s n = (false, s) := by
  unfold setAvailableFrames_Locked
  rw [if_pos h]

/-- With a frame outstanding `setMaxFramesInFlight` fails and changes nothing. -/
theorem setMaxFramesInFlight_busy (alloc : Nat → Option Nat) (s : EvsCamera) (n : Nat)
    (h : 0 < s.mFramesInUse) :
    (setMaxFramesInFlight alloc s n).1 ≠ .OK ∧ (setMaxFramesInFlight alloc s n).2 = s := by
  unfold setMaxFramesInFlight
  split
  · exact ⟨by simp, rfl⟩
  · rw [setAvailableFrames_Locked_busy alloc s n h]
    exact ⟨by simp, rfl⟩

/-- C4: for every requested count `n`, `setAvailableFrames_Locked` returns false and
leaves the session, and with it the buffer pool, unchanged whenever `mFramesInUse` is
positive, and `setMaxFramesInFlight`, through which it is reached, then does not return OK
and leaves the session unchanged as well; in every state reached from a freshly created
session the same holds whenever some buffer record has `inUse` set. -/
theorem setAvailableFrames_fails_when_in_use (alloc : Nat → Option Nat) (n : Nat) :
    (∀ s : EvsCamera, 0 < s.mFramesInUse →
      setAvailableFrames_Locked alloc s n = (false, s) ∧
      (setMaxFramesInFlight alloc s n).1 ≠ .OK ∧
      (setMaxFramesInFlight alloc s n).2 = s) ∧
    (∀ (handles : List Nat) (events : List Event),
      (∃ r ∈ (run alloc (Create handles) events).mBuffers, r.inUse = true) →
      setAvailableFrames_Locked alloc (run alloc (Create handles) events) n
        = (false, run alloc (Create handles) events) ∧
      (setMaxFramesInFlight alloc (run alloc (Create handles) events) n).1 ≠ .OK ∧
      (setMaxFramesInFlight alloc (run alloc (Create handles) events) n).2
        = run alloc (Create handles) events) := by
  have key : ∀ s : EvsCamera, 0 < s.mFramesInUse →
      setAvailableFrames_Locked alloc s n = (false, s) ∧
      (setMaxFramesInFlight alloc s n).1 ≠ .OK ∧
      (setMaxFramesInFlight alloc s n).2 = s := fun s h =>
    ⟨setAvailableFrames_Locked_busy alloc s n h, setMaxFramesInFlight_busy alloc s n h⟩
  refine ⟨key, ?_⟩
  intro handles events hr
  apply key
  have hinv := run_inv alloc events (Create handles) (Create_inv handles)
  rw [hinv.1]
  exact inUseCount_pos _ hr

/-- Witness of C4: with one of two buffers in use, a request for five buffers is refused
with resource-exhausted and the session stays as it was. -/
theorem setAvailableFrames_fails_when_in_use_witness :
    0 < oneFrameOut.mFramesInUse ∧
    setAvailableFrames_Locked plentifulAlloc oneFrameOut 5 = (false, oneFrameOut) ∧
    (setMaxFramesInFlight plentifulAlloc oneFrameOut 5).1 = .RESOURCE_EXHAUSTED ∧
    (setMaxFramesInFlight plentifulAlloc oneFrameOut 5).2 = oneFrameOut ∧
    oneFrameOut.mBuffers = [⟨10, true⟩, ⟨11, false⟩] :=
  ⟨by decide,
    ((setAvailableFrames_fails_when_in_use plentifulAlloc 5).1 oneFrameOut (by decide)).1,
    by decide,
    ((setAvailableFrames_fails_when_in_use plentifulAlloc 5).1 oneFrameOut (by decide)).2.2,
    by decide⟩

/-! ## Forced shutdown -/

/-- In the Dead state every call of the interface leaves the session as it is and either
returns no result code or returns the unavailable signal. -/
theorem api_dead (alloc : Nat → Option Nat) (s : EvsCamera) (call : ApiCall)
    (h : s.mStreamState = .DEAD) :
    (call.run alloc s).2 = s ∧
      ((call.run alloc s).1 = none ∨ (call.run alloc s).1 = some .UNAVAILABLE) := by
  cases call with
  | getCameraInfo => simp [ApiCall.run]
  | getExtendedInfo id => simp [ApiCall.run]
  | setExtendedInfo id value => simp [ApiCall.run, setExtendedInfo, setExtendedInfo_1_1, h]
  | getCameraInfo_1_1 => simp [ApiCall.run]
  | getPhysicalCameraInfo id => simp [ApiCall.run]
  | getParameterList => simp [ApiCall.run]
  | getIntParameterRange id => simp [ApiCall.run]
  | importExternalBuffers buffers => simp [ApiCall.run, importExternalBuffers, h]
  | setMaxFramesInFlight n => simp [ApiCall.run, setMaxFramesInFlight, h]
  | startVideoStream stream => simp [ApiCall.run, startVideoStream, h]
  | stopVideoStream => simp [ApiCall.run, stopVideoStream, h]
  | doneWithFrame bufferId => simp [ApiCall.run, doneWithFrame, h]
  | pauseVideoStream => simp [ApiCall.run, pauseVideoStream, h]
  | resumeVideoStream => simp [ApiCall.run, resumeVideoStream, h]
  | doneWithFrame_1_1 buffers => simp [ApiCall.run, doneWithFrame_1_1, h]
  | setMaster caller => simp [ApiCall.run, setMaster, h]
  | forceMaster display => simp [ApiCall.run, forceMaster, h]
  | unsetMaster caller => simp [ApiCall.run, unsetMaster, h]
  | setIntParameter caller id value => simp [ApiCall.run, setIntParameter, h]
  | getIntParameter id => simp [ApiCall.run, getIntParameter, h]
  | setExtendedInfo_1_1 id value => simp [ApiCall.run, setExtendedInfo_1_1, h]
  | getExtendedInfo_1_1 id => simp [ApiCall.run, getExtendedInfo_1_1, h]

/-- No event leads out of the Dead state. -/
theorem step_dead (alloc : Nat → Option Nat) (s : EvsCamera) (e : Event)
    (h : s.mStreamState = .DEAD) : (step alloc s e).mStreamState = .DEAD := by
  cases e with
  | api call =>
    show (call.run alloc s).2.mStreamState = .DEAD
    rw [(api_dead alloc s call h).1, h]
  | generateFrames =>
    show (generateFrames s).mStreamState = .DEAD
    unfold generateFrames
    rw [h]
    exact h
  | forceShutdown => rfl

/-- No sequence of events leads out of the Dead state. -/
theorem run_dead (alloc : Nat → Option Nat) (events : List Event) (s : EvsCamera)
    (h : s.mStreamState = .DEAD) : (run alloc s events).mStreamState = .DEAD := by
  induction events generalizing s with
  | nil => exact h
  | cons e es ih => exact ih _ (step_dead alloc s e h)

/-- In the Dead state every method that has a result code returns the unavailable signal
and hands the session back as it is, and the two methods without result code that could
write the session leave it as it is. -/
theorem dead_calls (alloc : Nat → Option Nat) (t : EvsCamera) (h : t.mStreamState = .DEAD) :
    (∀ n, setMaxFramesInFlight alloc t n = (.UNAVAILABLE, t)) ∧
    (∀ stream, startVideoStream t stream = (.UNAVAILABLE, t)) ∧
    (∀ id value, setExtendedInfo t id value = (.UNAVAILABLE, t)) ∧
    pauseVideoStream t = (.UNAVAILABLE, t) ∧
    resumeVideoStream t = (.UNAVAILABLE, t) ∧
    (∀ buffers, doneWithFrame_1_1 t buffers = (.UNAVAILABLE, t)) ∧
    (∀ caller, setMaster t caller = (.UNAVAILABLE, t)) ∧
    (∀ display, forceMaster t display = (.UNAVAILABLE, t)) ∧
    (∀ caller, unsetMaster t caller = (.UNAVAILABLE, t)) ∧
    (∀ caller id value, setIntParameter t caller id value = (.UNAVAILABLE, t)) ∧
    (∀ id, getIntParameter t id = (.UNAVAILABLE, none)) ∧
    (∀ id value, setExtendedInfo_1_1 t id value = (.UNAVAILABLE, t)) ∧
    (∀ id, getExtendedInfo_1_1 t id = (.UNAVAILABLE, none)) ∧
    (∀ buffers, importExternalBuffers t buffers = (.UNAVAILABLE, 0)) ∧
    stopVideoStream t = t ∧
    (∀ bufferId, doneWithFrame t bufferId = t) ∧
    (∀ id, getExtendedInfo t id = 0) := by
  refine ⟨?_, ?_, ?_, ?_, ?_, ?_, ?_, ?_, ?_, ?_, ?_, ?_, ?_, ?_, ?_, ?_, ?_⟩
  · intro n; simp [setMaxFramesInFlight, h]
  · intro stream; simp [startVideoStream, h]
  · intro id value; simp [setExtendedInfo, setExtendedInfo_1_1, h]
  · simp [pauseVideoStream, h]
  · simp [resumeVideoStream, h]
  · intro buffers; simp [doneWithFrame_1_1, h]
  · intro caller; simp [setMaster, h]
  · intro display; simp [forceMaster, h]
  · intro caller; simp [unsetMaster, h]
  · intro caller id value; simp [setIntParameter, h]
  · intro id; simp [getIntParameter, h]
  · intro id value; simp [setExtendedInfo_1_1, h]
  · intro id; simp [getExtendedInfo_1_1, h]
  · intro buffers; simp [importExternalBuffers, h]
  · simp [stopVideoStream, h]
  · intro bufferId; simp [doneWithFrame, h]
  · intro id; simp [getExtendedInfo, h]

/-- C5: let `t` be any session after `forceShutdown` followed by any sequence of events
(calls of any of the 22 methods of the interface, iterations of the frame-production task,
further forced shutdowns). The stream state right after `forceShutdown` is Dead and the
stream state of `t` is Dead. Every call made on `t` leaves `t` as it is and returns the
unavailable signal, or no result code when the method has none. Method by method: each of
the fourteen methods with a result code returns the unavailable signal and hands `t` back,
`stopVideoStream` and `doneWithFrame` leave `t` as it is, and the remaining six methods
only hand back a reply and cannot write the session. -/
theorem dead_after_forceShutdown (alloc : Nat → Option Nat) (s t : EvsCamera)
    (events : List Event) (call : ApiCall)
    (ht : t = run alloc (forceShutdown s) events) :
    (forceShutdown s).mStreamState = .DEAD ∧
    t.mStreamState = .DEAD ∧
    (call.run alloc t).2 = t ∧
    ((call.run alloc t).1 = none ∨ (call.run alloc t).1 = some .UNAVAILABLE) ∧
    (∀ n, setMaxFramesInFlight alloc t n = (.UNAVAILABLE, t)) ∧
    (∀ stream, startVideoStream t stream = (.UNAVAILABLE, t)) ∧
    (∀ id value, setExtendedInfo t id value = (.UNAVAILABLE, t)) ∧
    pauseVideoStream t = (.UNAVAILABLE, t) ∧
    resumeVideoStream t = (.UNAVAILABLE, t) ∧
    (∀ buffers, doneWithFrame_1_1 t buffers = (.UNAVAILABLE, t)) ∧
    (∀ caller, setMaster t caller = (.UNAVAILABLE, t)) ∧
    (∀ display, forceMaster t display = (.UNAVAILABLE, t)) ∧
    (∀ caller, unsetMaster t caller = (.UNAVAILABLE, t)) ∧
    (∀ caller id value, setIntParameter t caller id value = (.UNAVAILABLE, t)) ∧
    (∀ id, getIntParameter t id = (.UNAVAILABLE, none)) ∧
    (∀ id value, setExtendedInfo_1_1 t id value = (.UNAVAILABLE, t)) ∧
    (∀ id, getExtendedInfo_1_1 t id = (.UNAVAILABLE, none)) ∧
    (∀ buffers, importExternalBuffers t buffers = (.UNAVAILABLE, 0)) ∧
    stopVideoStream t = t ∧
    (∀ bufferId, doneWithFrame t bufferId = t) ∧
    (∀ id, getExtendedInfo t id = 0) := by
  have hdead : t.mStreamState = .DEAD := by
    rw [ht]
    exact run_dead alloc events (forceShutdown s) rfl
  exact ⟨rfl, hdead, (api_dead alloc t call hdead).1, (api_dead alloc t call hdead).2,
    dead_calls alloc t hdead⟩

/-- Witness of C5 on `afterShutdown`: the state is Dead, the attempt to start the stream,
the request for three buffers and the import of a buffer are answered with the unavailable
signal, and the pool released by the shutdown stays empty with no frame outstanding. -/
theorem dead_after_forceShutdown_witness :
    afterShutdown.mStreamState = .DEAD ∧
    (ApiCall.run plentifulAlloc afterShutdown (.startVideoStream (some 2))).1
      = some .UNAVAILABLE ∧
    (ApiCall.run plentifulAlloc afterShutdown (.startVideoStream (some 2))).2 = afterShutdown ∧
    setMaxFramesInFlight plentifulAlloc afterShutdown 3 = (.UNAVAILABLE, afterShutdown) ∧
    importExternalBuffers afterShutdown [5] = (.UNAVAILABLE, 0) ∧
    stopVideoStream afterShutdown = afterShutdown ∧
    afterShutdown.mBuffers = [] ∧ afterShutdown.mFramesInUse = 0 := by
  have h := dead_after_forceShutdown plentifulAlloc oneFrameOut afterShutdown
    [.api (.startVideoStream (some 2)), .generateFrames, .api (.setMaxFramesInFlight 3),
      .api (.doneWithFrame 0)] (.startVideoStream (some 2)) rfl
  obtain ⟨_, hd, hs, _, hmax, _, _, _, _, _, _, _, _, _, _, _, _, himp, hstop, _, _⟩ := h
  exact ⟨hd, by decide, hs, hmax 3, himp [5], hstop, by decide, by decide⟩

end Evs

namespace HwcHal

/-! ## Forwarders that cast enums between interface versions -/

/-- C6: `setColorMode_2_3`, `getRenderIntents_2_3` and `getClientTargetSupport_2_3` are pure
forwarding. Each returns exactly the result code (and, for the render intents, the output
list) that the 2.2 operation gives on the same device for the same display, intent, width
and height and for the 2.2 color mode, pixel format and dataspace with the same underlying
integer value; the device is left as the 2.2 operation leaves it and the dispatch table is
not touched. -/
theorem forwarders_pure {σ : Type} (base : BaseType2_2 σ) (hal : HwcHalImpl σ)
    (display : Display) (mode : ColorMode) (intent : RenderIntent)
    (outIntents : List RenderIntent) (width height : Nat) (format : PixelFormat)
    (dataspace : Dataspace) :
    (setColorMode_2_3 base hal display mode intent).error
        = (base.setColorMode_2_2 display ⟨mode.val⟩ intent hal.mDevice).1 ∧
    (setColorMode_2_3 base hal display mode intent).hal
        = { hal with mDevice := (base.setColorMode_2_2 display ⟨mode.val⟩ intent hal.mDevice).2 } ∧
    (getRenderIntents_2_3 base hal display mode outIntents).error
        = (base.getRenderIntents display ⟨mode.val⟩ outIntents hal.mDevice).1.1 ∧
    (getRenderIntents_2_3 base hal display mode outIntents).out
        = (base.getRenderIntents display ⟨mode.val⟩ outIntents hal.mDevice).1.2 ∧
    (getRenderIntents_2_3 base hal display mode outIntents).hal
        = { hal with
            mDevice := (base.getRenderIntents display ⟨mode.val⟩ outIntents hal.mDevice).2 } ∧
    (getClientTargetSupport_2_3 base hal display width height format dataspace).error
        = (base.getClientTargetSupport_2_2 display width height ⟨format.val⟩ ⟨dataspace.val⟩
            hal.mDevice).1 ∧
    (getClientTargetSupport_2_3 base hal display width height format dataspace).hal
        = { hal with
            mDevice := (base.getClientTargetSupport_2_2 display width height ⟨format.val⟩
              ⟨dataspace.val⟩ hal.mDevice).2 } :=
  ⟨rfl, rfl, rfl, rfl, rfl, rfl, rfl⟩

/-! ## Initialization of the dispatch table -/

/-- One optional lookup appends its descriptor to the log of lookups and leaves the rest of
the device alone. -/
theorem initOptionalDispatch_device {σ : Type} (desc : FunctionDescriptor)
    (hal : HwcHalImpl σ) :
    (initOptionalDispatch desc hal).2.mDevice
      = { hal.mDevice with lookups := hal.mDevice.lookups ++ [desc] } := by
  cases desc <;> simp only [initOptionalDispatch] <;> split <;> rfl

/-- The seven optional descriptors in the order in which `initDispatch` looks them up. -/
theorem initDispatch_lookups {σ : Type} (base : BaseType2_2 σ) (hal : HwcHalImpl σ)
    (h : (base.initDispatch hal.mDevice).1 = true) :
    (initDispatch base hal).2.mDevice
      = { (base.initDispatch hal.mDevice).2 with
          lookups := (base.initDispatch hal.mDevice).2.lookups ++
            [.HWC2_FUNCTION_GET_DISPLAY_IDENTIFICATION_DATA,
             .HWC2_FUNCTION_SET_LAYER_COLOR_TRANSFORM,
             .HWC2_FUNCTION_GET_DISPLAYED_CONTENT_SAMPLING_ATTRIBUTES,
             .HWC2_FUNCTION_SET_DISPLAYED_CONTENT_SAMPLING_ENABLED,
             .HWC2_FUNCTION_GET_DISPLAYED_CONTENT_SAMPLE,
             .HWC2_FUNCTION_GET_DISPLAY_CAPABILITIES,
             .HWC2_FUNCTION_SET_LAYER_PER_FRAME_METADATA_BLOBS] } := by
  simp [initDispatch, h, initOptionalDispatch_device]

/-- Effect on the table of the optional lookup of `HWC2_FUNCTION_GET_DISPLAY_IDENTIFICATION_DATA`. -/
theorem initOptionalDispatch_getDisplayIdentificationData {σ : Type} (hal : HwcHalImpl σ) :
    (initOptionalDispatch .HWC2_FUNCTION_GET_DISPLAY_IDENTIFICATION_DATA hal).2.mDispatch
      = { hal.mDispatch with
          getDisplayIdentificationData :=
            (hal.mDevice.getFunction.getDisplayIdentificationData <|> hal.mDispatch.getDisplayIdentificationData) } := by
  unfold initOptionalDispatch
  cases h : hal.mDevice.getFunction.getDisplayIdentificationData <;> simp [h]

/-- Effect on the table of the optional lookup of `HWC2_FUNCTION_SET_LAYER_COLOR_TRANSFORM`. -/
theorem initOptionalDispatch_setLayerColorTransform {σ : Type} (hal : HwcHalImpl σ) :
    (initOptionalDispatch .HWC2_FUNCTION_SET_LAYER_COLOR_TRANSFORM hal).2.mDispatch
      = { hal.mDispatch with
          setLayerColorTransform :=
            (hal.mDevice.getFunction.setLayerColorTransform <|> hal.mDispatch.setLayerColorTransform) } := by
  unfold initOptionalDispatch
  cases h : hal.mDevice.getFunction.setLayerColorTransform <;> simp [h]

/-- Effect on the table of the optional lookup of `HWC2_FUNCTION_GET_DISPLAYED_CONTENT_SAMPLING_ATTRIBUTES`. -/
theorem initOptionalDispatch_getDisplayedContentSamplingAttributes {σ : Type} (hal : HwcHalImpl σ) :
    (initOptionalDispatch .HWC2_FUNCTION_GET_DISPLAYED_CONTENT_SAMPLING_ATTRIBUTES hal).2.mDispatch
      = { hal.mDispatch with
          getDisplayedContentSamplingAttributes :=
            (hal.mDevice.getFunction.getDisplayedContentSamplingAttributes <|> hal.mDispatch.getDisplayedContentSamplingAttributes) } := by
  unfold initOptionalDispatch
  cases h : hal.mDevice.getFunction.getDisplayedContentSamplingAttributes <;> simp [h]

/-- Effect on the table of the optional lookup of `HWC2_FUNCTION_SET_DISPLAYED_CONTENT_SAMPLING_ENABLED`. -/
theorem initOptionalDispatch_setDisplayedContentSamplingEnabled {σ : Type} (hal : HwcHalImpl σ) :
    (initOptionalDispatch .HWC2_FUNCTION_SET_DISPLAYED_CONTENT_SAMPLING_ENABLED hal).2.mDispatch
      = { hal.mDispatch with
          setDisplayedContentSamplingEnabled :=
            (hal.mDevice.getFunction.setDisplayedContentSamplingEnabled <|> hal.mDispatch.setDisplayedContentSamplingEnabled) } := by
  unfold initOptionalDispatch
  cases h : hal.mDevice.getFunction.setDisplayedContentSamplingEnabled <;> simp [h]

/-- Effect on the table of the optional lookup of `HWC2_FUNCTION_GET_DISPLAYED_CONTENT_SAMPLE`. -/
theorem initOptionalDispatch_getDisplayedContentSample {σ : Type} (hal : HwcHalImpl σ) :
    (initOptionalDispatch .HWC2_FUNCTION_GET_DISPLAYED_CONTENT_SAMPLE hal).2.mDispatch
      = { hal.mDispatch with
          getDisplayedContentSample :=
            (hal.mDevice.getFunction.getDisplayedContentSample <|> hal.mDispatch.getDisplayedContentSample) } := by
  unfold initOptionalDispatch
  cases h : hal.mDevice.getFunction.getDisplayedContentSample <;> simp [h]

/-- Effect on the table of the optional lookup of `HWC2_FUNCTION_GET_DISPLAY_CAPABILITIES`. -/
theorem initOptionalDispatch_getDisplayCapabilities {σ : Type} (hal : HwcHalImpl σ) :
    (initOptionalDispatch .HWC2_FUNCTION_GET_DISPLAY_CAPABILITIES hal).2.mDispatch
      = { hal.mDispatch with
          getDisplayCapabilities :=
            (hal.mDevice.getFunction.getDisplayCapabilities <|> hal.mDispatch.getDisplayCapabilities) } := by
  unfold initOptionalDispatch
  cases h : hal.mDevice.getFunction.getDisplayCapabilities <;> simp [h]

/-- Effect on the table of the optional lookup of `HWC2_FUNCTION_SET_LAYER_PER_FRAME_METADATA_BLOBS`. -/
theorem initOptionalDispatch_setLayerPerFrameMetadataBlobs {σ : Type} (hal : HwcHalImpl σ) :
    (initOptionalDispatch .HWC2_FUNCTION_SET_LAYER_PER_FRAME_METADATA_BLOBS hal).2.mDispatch
      = { hal.mDispatch with
          setLayerPerFrameMetadataBlobs :=
            (hal.mDevice.getFunction.setLayerPerFrameMetadataBlobs <|> hal.mDispatch.setLayerPerFrameMetadataBlobs) } := by
  unfold initOptionalDispatch
  cases h : hal.mDevice.getFunction.setLayerPerFrameMetadataBlobs <;> simp [h]

/-- Entries of the table after a successful `initDispatch`: each is the function the driver
provides or, when the driver provides none, what the entry held before. -/
theorem initDispatch_entries {σ : Type} (base : BaseType2_2 σ) (hal : HwcHalImpl σ)
    (h : (base.initDispatch hal.mDevice).1 = true) :
    (initDispatch base hal).2.mDispatch
      = { getDisplayIdentificationData :=
            ((base.initDispatch hal.mDevice).2.getFunction.getDisplayIdentificationData
              <|> hal.mDispatch.getDisplayIdentificationData)
          setLayerColorTransform :=
            ((base.initDispatch hal.mDevice).2.getFunction.setLayerColorTransform
              <|> hal.mDispatch.setLayerColorTransform)
          getDisplayedContentSamplingAttributes :=
            ((base.initDispatch hal.mDevice).2.getFunction.getDisplayedContentSamplingAttributes
              <|> hal.mDispatch.getDisplayedContentSamplingAttributes)
          setDisplayedContentSamplingEnabled :=
            ((base.initDispatch hal.mDevice).2.getFunction.setDisplayedContentSamplingEnabled
              <|> hal.mDispatch.setDisplayedContentSamplingEnabled)
          getDisplayedContentSample :=
            ((base.initDispatch hal.mDevice).2.getFunction.getDisplayedContentSample
              <|> hal.mDispatch.getDisplayedContentSample)
          getDisplayCapabilities :=
            ((base.initDispatch hal.mDevice).2.getFunction.getDisplayCapabilities
              <|> hal.mDispatch.getDisplayCapabilities)
          setLayerPerFrameMetadataBlobs :=
            ((base.initDispatch hal.mDevice).2.getFunction.setLayerPerFrameMetadataBlobs
              <|> hal.mDispatch.setLayerPerFrameMetadataBlobs) } := by
  simp only [initDispatch, h, Bool.not_true, Bool.false_eq_true, if_false,
    initOptionalDispatch_getDisplayIdentificationData, initOptionalDispatch_setLayerColorTransform,
    initOptionalDispatch_getDisplayedContentSamplingAttributes,
    initOptionalDispatch_setDisplayedContentSamplingEnabled,
    initOptionalDispatch_getDisplayedContentSample, initOptionalDispatch_getDisplayCapabilities,
    initOptionalDispatch_setLayerPerFrameMetadataBlobs, initOptionalDispatch_device]

/-- C7: `initDispatch` returns false exactly when the 2.2 base `initDispatch` returns false,
and then the object is the one the base left behind: no optional descriptor is looked up
and the table is not written. Otherwise it returns true, looks up the seven optional
descriptors once each in source order, and every entry holds the function the driver
provides or, when the driver provides none, what it held before; starting from
`mDispatch = {}` the table ends up equal to what the driver provides, so that entries not
provided stay null. -/
theorem initDispatch_optional {σ : Type} (base : BaseType2_2 σ) (hal : HwcHalImpl σ) :
    ((initDispatch base hal).1 = false ↔ (base.initDispatch hal.mDevice).1 = false) ∧
    ((base.initDispatch hal.mDevice).1 = false →
      (initDispatch base hal).2 = { hal with mDevice := (base.initDispatch hal.mDevice).2 }) ∧
    ((base.initDispatch hal.mDevice).1 = true →
      (initDispatch base hal).1 = true ∧
      (initDispatch base hal).2.mDevice
        = { (base.initDispatch hal.mDevice).2 with
            lookups := (base.initDispatch hal.mDevice).2.lookups ++
              [.HWC2_FUNCTION_GET_DISPLAY_IDENTIFICATION_DATA,
               .HWC2_FUNCTION_SET_LAYER_COLOR_TRANSFORM,
               .HWC2_FUNCTION_GET_DISPLAYED_CONTENT_SAMPLING_ATTRIBUTES,
               .HWC2_FUNCTION_SET_DISPLAYED_CONTENT_SAMPLING_ENABLED,
               .HWC2_FUNCTION_GET_DISPLAYED_CONTENT_SAMPLE,
               .HWC2_FUNCTION_GET_DISPLAY_CAPABILITIES,
               .HWC2_FUNCTION_SET_LAYER_PER_FRAME_METADATA_BLOBS] } ∧
      (initDispatch base hal).2.mDispatch
        = { getDisplayIdentificationData :=
              ((base.initDispatch hal.mDevice).2.getFunction.getDisplayIdentificationData
                <|> hal.mDispatch.getDisplayIdentificationData)
            setLayerColorTransform :=
              ((base.initDispatch hal.mDevice).2.getFunction.setLayerColorTransform
                <|> hal.mDispatch.setLayerColorTransform)
            getDisplayedContentSamplingAttributes :=
              ((base.initDispatch hal.mDevice).2.getFunction.getDisplayedContentSamplingAttributes
                <|> hal.mDispatch.getDisplayedContentSamplingAttributes)
            setDisplayedContentSamplingEnabled :=
              ((base.initDispatch hal.mDevice).2.getFunction.setDisplayedContentSamplingEnabled
                <|> hal.mDispatch.setDisplayedContentSamplingEnabled)
            getDisplayedContentSample :=
              ((base.initDispatch hal.mDevice).2.getFunction.getDisplayedContentSample
                <|> hal.mDispatch.getDisplayedContentSample)
            getDisplayCapabilities :=
              ((base.initDispatch hal.mDevice).2.getFunction.getDisplayCapabilities
                <|> hal.mDispatch.getDisplayCapabilities)
            setLayerPerFrameMetadataBlobs :=
              ((base.initDispatch hal.mDevice).2.getFunction.setLayerPerFrameMetadataBlobs
                <|> hal.mDispatch.setLayerPerFrameMetadataBlobs) } ∧
      (hal.mDispatch = Dispatch.empty σ →
        (initDispatch base hal).2.mDispatch = (base.initDispatch hal.mDevice).2.getFunction)) := by
  refine ⟨?_, ?_, ?_⟩
  · cases h : (base.initDispatch hal.mDevice).1 <;> simp [initDispatch, h]
  · intro h
    simp [initDispatch, h]
  · intro h
    refine ⟨by simp [initDispatch, h], initDispatch_lookups base hal h,
      initDispatch_entries base hal h, ?_⟩
    intro he
    rw [initDispatch_entries base hal h, he]
    simp [Dispatch.empty]

/-- Witness of C7: on a driver that provides two of the seven functions the initialization
succeeds after seven lookups and exactly those two entries are non-null; when the base
initialization fails nothing is looked up and the table stays null. -/
theorem initDispatch_optional_witness :
    (initDispatch sampleBase partialHal).1 = true ∧
    (initDispatch sampleBase partialHal).2.mDevice.lookups.length = 7 ∧
    (initDispatch sampleBase partialHal).2.mDispatch.getDisplayIdentificationData.isSome = false ∧
    (initDispatch sampleBase partialHal).2.mDispatch.setLayerColorTransform.isSome = true ∧
    (initDispatch sampleBase partialHal).2.mDispatch.getDisplayCapabilities.isSome = true ∧
    (initDispatch sampleBase partialHal).2.mDispatch.setLayerPerFrameMetadataBlobs.isSome = false ∧
    (initDispatch failingBase partialHal).1 = false ∧
    (initDispatch failingBase partialHal).2.mDevice.lookups = [] ∧
    (initDispatch failingBase partialHal).2.mDispatch.setLayerColorTransform.isSome = false := by
  have hs := (initDispatch_optional sampleBase partialHal).2.2 rfl
  have hf := (initDispatch_optional failingBase partialHal).2.1 rfl
  refine ⟨hs.1, ?_, ?_, ?_, ?_, ?_, ?_, ?_, ?_⟩
  · rw [hs.2.1]; rfl
  · rw [hs.2.2.2 rfl]; rfl
  · rw [hs.2.2.2 rfl]; rfl
  · rw [hs.2.2.2 rfl]; rfl
  · rw [hs.2.2.2 rfl]; rfl
  · exact (initDispatch_optional failingBase partialHal).1.mpr rfl
  · rw [hf]; rfl
  · rw [hf]; rfl

/-! ## Metadata keys -/

/-- The loop of `getPerFrameMetadataKeys_2_3` appends the cast keys in order. -/
theorem foldl_pushCastKey (keys : List PerFrameMetadataKey_V2_2)
    (acc : List PerFrameMetadataKey) :
    keys.foldl pushCastKey acc = acc ++ keys.map castKey := by
  induction keys generalizing acc with
  | nil => simp
  | cons key rest ih => simp [List.foldl_cons, ih, pushCastKey]

/-- C8: for every display and every prior content of `outKeys`: when the 2.2
`getPerFrameMetadataKeys` (called on an empty vector) returns an error other than NONE,
`getPerFrameMetadataKeys_2_3` returns that error and hands `outKeys` back unchanged;
otherwise it returns NONE and `outKeys` is the list of the 2.2 keys, each cast to the 2.3
key with the same underlying value, with the same length and in the same order, whatever
`outKeys` held before. -/
theorem getPerFrameMetadataKeys_2_3_spec {σ : Type} (k : Constants) (base : BaseType2_2 σ)
    (hal : HwcHalImpl σ) (display : Display) (outKeys : List PerFrameMetadataKey) :
    ((base.getPerFrameMetadataKeys display [] hal.mDevice).1.1 ≠ k.NONE →
      (getPerFrameMetadataKeys_2_3 k base hal display outKeys).error
        = (base.getPerFrameMetadataKeys display [] hal.mDevice).1.1 ∧
      (getPerFrameMetadataKeys_2_3 k base hal display outKeys).out = outKeys) ∧
    ((base.getPerFrameMetadataKeys display [] hal.mDevice).1.1 = k.NONE →
      (getPerFrameMetadataKeys_2_3 k base hal display outKeys).error = k.NONE ∧
      (getPerFrameMetadataKeys_2_3 k base hal display outKeys).out
        = (base.getPerFrameMetadataKeys display [] hal.mDevice).1.2.map castKey ∧
      (getPerFrameMetadataKeys_2_3 k base hal display outKeys).out.length
        = (base.getPerFrameMetadataKeys display [] hal.mDevice).1.2.length ∧
      (getPerFrameMetadataKeys_2_3 k base hal display outKeys).out.map (fun key => key.val)
        = (base.getPerFrameMetadataKeys display [] hal.mDevice).1.2.map (fun key => key.val)) ∧
    (getPerFrameMetadataKeys_2_3 k base hal display outKeys).hal
      = { hal with mDevice := (base.getPerFrameMetadataKeys display [] hal.mDevice).2 } := by
  refine ⟨?_, ?_, ?_⟩
  · intro h
    simp [getPerFrameMetadataKeys_2_3, h]
  · intro h
    have hout : (getPerFrameMetadataKeys_2_3 k base hal display outKeys).out
        = (base.getPerFrameMetadataKeys display [] hal.mDevice).1.2.map castKey := by
      simp [getPerFrameMetadataKeys_2_3, h, foldl_pushCastKey]
    refine ⟨by simp [getPerFrameMetadataKeys_2_3, h], hout, ?_, ?_⟩
    · rw [hout, List.length_map]
    · rw [hout, List.map_map]
      rfl
  · unfold getPerFrameMetadataKeys_2_3
    dsimp only
    split <;> rfl

/-- Witness of C8: a failing 2.2 query (code 2) leaves the two prior keys in place; a
succeeding one replaces them by the three reported keys. -/
theorem getPerFrameMetadataKeys_2_3_spec_witness :
    (getPerFrameMetadataKeys_2_3 androidConstants failingBase bareHal 0 [⟨7⟩, ⟨8⟩]).error = 2 ∧
    (getPerFrameMetadataKeys_2_3 androidConstants failingBase bareHal 0 [⟨7⟩, ⟨8⟩]).out
      = [⟨7⟩, ⟨8⟩] ∧
    (getPerFrameMetadataKeys_2_3 androidConstants sampleBase bareHal 0 [⟨7⟩, ⟨8⟩]).error = 0 ∧
    (getPerFrameMetadataKeys_2_3 androidConstants sampleBase bareHal 0 [⟨7⟩, ⟨8⟩]).out
      = [⟨1⟩, ⟨2⟩, ⟨5⟩] := by
  have hf := (getPerFrameMetadataKeys_2_3_spec androidConstants failingBase bareHal 0
    [⟨7⟩, ⟨8⟩]).1 (by decide)
  have hs := (getPerFrameMetadataKeys_2_3_spec androidConstants sampleBase bareHal 0
    [⟨7⟩, ⟨8⟩]).2.1 rfl
  exact ⟨hf.1, hf.2, hs.1, hs.2.1⟩

/-! ## Metadata blobs -/

/-- A size below `2 ^ 31` survives the conversion to `int`. -/
theorem toInt32_of_lt (n : Nat) (h : n < 2 ^ 31) : toInt32 n = n := by
  unfold toInt32
  rw [Nat.mod_eq_of_lt (by omega)]
  push_cast
  ring

/-- A size below `2 ^ 32` survives the conversion to `uint32_t`. -/
theorem toUInt32_of_lt (n : Nat) (h : n < 2 ^ 32) : toUInt32 n = n := Nat.mod_eq_of_lt h

/-- Growing a vector by `n` elements appends `n` zeros. -/
theorem resize_grow (v : List Nat) (n : Nat) :
    resize v (v.length + n) = v ++ List.replicate n 0 := by
  unfold resize
  rw [List.take_of_length_le (by omega)]
  congr 2
  omega

/-- Copying `src` over the zeros that were appended to `v` yields `v ++ src`. -/
theorem memcpyAt_tail (v src : List Nat) :
    memcpyAt (v ++ List.replicate src.length 0) (v.length : Int) src = some (v ++ src) := by
  unfold memcpyAt
  have hc : (0 : Int) ≤ (v.length : Int) ∧
      (v.length : Int).toNat + src.length ≤ (v ++ List.replicate src.length 0).length := by
    constructor
    · exact Int.natCast_nonneg _
    · simp
  rw [if_pos hc]
  simp

/-- One iteration of the loop, when the bytes gathered so far and the new blob together
stay below `2 ^ 31`: key, size and bytes are appended. -/
theorem appendBlob_spec (acc : BlobArrays) (metadataBlob : PerFrameMetadataBlob)
    (h : acc.blobs.length + metadataBlob.blob.length < 2 ^ 31) :
    appendBlob acc metadataBlob
      = some { keys := acc.keys ++ [metadataBlob.key.val]
               sizes := acc.sizes ++ [metadataBlob.blob.length]
               blobs := acc.blobs ++ metadataBlob.blob } := by
  unfold appendBlob
  simp only [toInt32_of_lt acc.blobs.length (by omega),
    toUInt32_of_lt metadataBlob.blob.length (by omega), resize_grow, memcpyAt_tail,
    Option.map_some']

/-- The whole loop, when the bytes gathered so far and all remaining blobs together stay
below `2 ^ 31`: keys, sizes and bytes of the remaining entries are appended in order. -/
theorem appendBlobs_spec (metadata : List PerFrameMetadataBlob) (acc : BlobArrays)
    (h : acc.blobs.length + totalBlobBytes metadata < 2 ^ 31) :
    appendBlobs acc metadata
      = some { keys := acc.keys ++ metadata.map fun m => m.key.val
               sizes := acc.sizes ++ metadata.map fun m => m.blob.length
               blobs := acc.blobs ++ (metadata.map fun m => m.blob).flatten } := by
  induction metadata generalizing acc with
  | nil => simp [appendBlobs]
  | cons m rest ih =>
    have ht : totalBlobBytes (m :: rest) = m.blob.length + totalBlobBytes rest := by
      simp [totalBlobBytes]
    rw [ht] at h
    have hstep := appendBlob_spec acc m (by omega)
    have hrest := ih { keys := acc.keys ++ [m.key.val]
                       sizes := acc.sizes ++ [m.blob.length]
                       blobs := acc.blobs ++ m.blob }
      (by simp only [List.length_append]; omega)
    simp only [appendBlobs, hstep, Option.some_bind, hrest]
    simp

/-- The driver call made by `setLayerPerFrameMetadataBlobs` when the entry is non-null and
the blobs hold fewer than `2 ^ 31` bytes in total. -/
theorem setLayerPerFrameMetadataBlobs_call {σ : Type} (k : Constants) (hal : HwcHalImpl σ)
    (pfn : HWC2_PFN_SET_LAYER_PER_FRAME_METADATA_BLOBS σ) (display : Display) (layer : Layer)
    (metadata : List PerFrameMetadataBlob)
    (hd : hal.mDispatch.setLayerPerFrameMetadataBlobs = some pfn)
    (hbytes : totalBlobBytes metadata < 2 ^ 31) :
    setLayerPerFrameMetadataBlobs k hal display layer metadata
      = some
          { error := (pfn display layer (toUInt32 metadata.length)
              (metadata.map fun m => m.key.val) (metadata.map fun m => m.blob.length)
              (metadata.map fun m => m.blob).flatten hal.mDevice.state).1
            out := ()
            hal :=
              { hal with
                mDevice :=
                  { hal.mDevice with
                    state := (pfn display layer (toUInt32 metadata.length)
                      (metadata.map fun m => m.key.val) (metadata.map fun m => m.blob.length)
                      (metadata.map fun m => m.blob).flatten hal.mDevice.state).2
                    calls := hal.mDevice.calls ++
                      [.HWC2_FUNCTION_SET_LAYER_PER_FRAME_METADATA_BLOBS] } } } := by
  unfold setLayerPerFrameMetadataBlobs
  rw [hd]
  dsimp only
  rw [appendBlobs_spec metadata _ (by simpa using hbytes)]
  simp [hwc2_device.invoke]

/-- Cutting the concatenation of lists at the sum of the first `i` lengths and taking as
many elements as the `i`-th list has gives back the `i`-th list. -/
theorem flatten_slice (L : List (List Nat)) (i : Nat) (h : i < L.length) :
    (L.flatten.drop ((L.map List.length).take i).sum).take (L[i].length) = L[i] := by
  induction L generalizing i with
  | nil => simp at h
  | cons l ls ih =>
    cases i with
    | zero => simp
    | succ j =>
      have hj : j < ls.length := by simpa using h
      simp only [List.map_cons, List.take_succ_cons, List.sum_cons, List.flatten_cons,
        List.getElem_cons_succ]
      rw [List.drop_append]
      exact ih j hj

/-- C9: for every metadata list the function can receive, that is one whose number of
entries is below `2 ^ 32`, and whose blobs hold fewer than `2 ^ 31` bytes in total, with a
non-null dispatch entry `setLayerPerFrameMetadataBlobs` calls the driver exactly once,
with `numElements = metadata.size()`, the keys and the blob sizes of the entries in order,
and the concatenation of the blobs in list order, and returns the driver's result code;
the byte array is as long as the sum of the sizes, and the slice that starts at the sum of
the first `i` sizes and has the `i`-th size is the `i`-th blob. -/
theorem setLayerPerFrameMetadataBlobs_spec {σ : Type} (k : Constants) (hal : HwcHalImpl σ)
    (pfn : HWC2_PFN_SET_LAYER_PER_FRAME_METADATA_BLOBS σ) (display : Display) (layer : Layer)
    (metadata : List PerFrameMetadataBlob)
    (hd : hal.mDispatch.setLayerPerFrameMetadataBlobs = some pfn)
    (hbytes : totalBlobBytes metadata < 2 ^ 31)
    (hlen : metadata.length < 2 ^ 32) :
    setLayerPerFrameMetadataBlobs k hal display layer metadata
      = some
          { error := (pfn display layer metadata.length
              (metadata.map fun m => m.key.val) (metadata.map fun m => m.blob.length)
              (metadata.map fun m => m.blob).flatten hal.mDevice.state).1
            out := ()
            hal :=
              { hal with
                mDevice :=
                  { hal.mDevice with
                    state := (pfn display layer metadata.length
                      (metadata.map fun m => m.key.val) (metadata.map fun m => m.blob.length)
                      (metadata.map fun m => m.blob).flatten hal.mDevice.state).2
                    calls := hal.mDevice.calls ++
                      [.HWC2_FUNCTION_SET_LAYER_PER_FRAME_METADATA_BLOBS] } } } ∧
    (metadata.map fun m => m.blob).flatten.length
      = (metadata.map fun m => m.blob.length).sum ∧
    ∀ (i : Nat) (hi : i < metadata.length),
      (((metadata.map fun m => m.blob).flatten.drop
        ((metadata.map fun m => m.blob.length).take i).sum).take (metadata[i].blob.length))
        = metadata[i].blob := by
  refine ⟨?_, ?_, ?_⟩
  · rw [setLayerPerFrameMetadataBlobs_call k hal pfn display layer metadata hd hbytes,
      toUInt32_of_lt metadata.length hlen]
  · simp [List.length_flatten, List.map_map, Function.comp_def]
  · intro i hi
    have hi' : i < (metadata.map fun m => m.blob).length := by simpa using hi
    have h := flatten_slice (metadata.map fun m => m.blob) i hi'
    simpa [List.map_map, Function.comp_def] using h

/-- Witness of C9 on three blobs of two, no and one byte: the driver is called once, sees
three elements and three bytes, and the slice for the third blob is that blob. -/
theorem setLayerPerFrameMetadataBlobs_spec_witness :
    totalBlobBytes threeBlobs < 2 ^ 31 ∧ threeBlobs.length < 2 ^ 32 ∧
    (setLayerPerFrameMetadataBlobs androidConstants recordingHal 0 0 threeBlobs).map
      (fun r => (r.error, r.hal.mDevice.state, r.hal.mDevice.calls))
      = some (3, 3, [.HWC2_FUNCTION_SET_LAYER_PER_FRAME_METADATA_BLOBS]) ∧
    ((threeBlobs.map fun m => m.blob).flatten.drop 2).take 1 = [3] := by
  have hb : totalBlobBytes threeBlobs < 2 ^ 31 := by decide
  have hl : threeBlobs.length < 2 ^ 32 := by decide
  have h := setLayerPerFrameMetadataBlobs_spec androidConstants recordingHal recordingDriver
    0 0 threeBlobs rfl hb hl
  refine ⟨hb, hl, ?_, h.2.2 2 (by decide)⟩
  rw [h.1]
  rfl

/-! ## Display identification data -/

/-- Length of a resized vector. -/
theorem length_resize (v : List Nat) (n : Nat) : (resize v n).length = n := by
  unfold resize
  simp only [List.length_append, List.length_take, List.length_replicate]
  omega

/-- A resize keeps the elements below both the old and the new length. -/
theorem take_resize (v : List Nat) (n m : Nat) (h : m ≤ min v.length n) :
    (resize v n).take m = v.take m := by
  unfold resize
  have h1 : m ≤ (v.take n).length := by
    rw [List.length_take]
    omega
  rw [List.take_append_of_le_length h1, List.take_take]
  congr 1
  omega

/-- Length of a buffer after the driver wrote through a pointer to it. -/
theorem length_writeThrough (buf w : List Nat) : (writeThrough buf w).length = buf.length := by
  unfold writeThrough
  simp only [List.length_append, List.length_take, List.length_drop]
  omega

/-- Unfolding of `getDisplayIdentificationData` for a non-null entry, in terms of the size
query and the fill call. -/
theorem getDisplayIdentificationData_some {σ : Type} (k : Constants) (hal : HwcHalImpl σ)
    (pfn : HWC2_PFN_GET_DISPLAY_IDENTIFICATION_DATA σ) (display : Display) (outPort : Nat)
    (outData : List Nat) (hd : hal.mDispatch.getDisplayIdentificationData = some pfn) :
    getDisplayIdentificationData k hal display outPort outData
      = if (identificationSizeQuery pfn display outPort hal.mDevice.state).1.error
            ≠ k.HWC2_ERROR_NONE then
          { error := (identificationSizeQuery pfn display outPort hal.mDevice.state).1.error
            out := ⟨(identificationSizeQuery pfn display outPort hal.mDevice.state).1.outPort,
              outData⟩
            hal :=
              { hal with
                mDevice :=
                  { hal.mDevice with
                    state := (identificationSizeQuery pfn display outPort hal.mDevice.state).2
                    calls := hal.mDevice.calls ++
                      [.HWC2_FUNCTION_GET_DISPLAY_IDENTIFICATION_DATA] } } }
        else if (identificationFill pfn display outPort hal.mDevice.state).1.error
            ≠ k.HWC2_ERROR_NONE then
          { error := (identificationFill pfn display outPort hal.mDevice.state).1.error
            out := ⟨(identificationFill pfn display outPort hal.mDevice.state).1.outPort,
              outData⟩
            hal :=
              { hal with
                mDevice :=
                  { hal.mDevice with
                    state := (identificationFill pfn display outPort hal.mDevice.state).2
                    calls := hal.mDevice.calls ++
                      [.HWC2_FUNCTION_GET_DISPLAY_IDENTIFICATION_DATA,
                       .HWC2_FUNCTION_GET_DISPLAY_IDENTIFICATION_DATA] } } }
        else
          { error := k.NONE
            out := ⟨(identificationFill pfn display outPort hal.mDevice.state).1.outPort,
              resize
                (writeThrough
                  (List.replicate
                    (toUInt32
                      (identificationSizeQuery pfn display outPort hal.mDevice.state).1.outSize) 0)
                  (identificationFill pfn display outPort hal.mDevice.state).1.outData)
                (toUInt32 (identificationFill pfn display outPort hal.mDevice.state).1.outSize)⟩
            hal :=
              { hal with
                mDevice :=
                  { hal.mDevice with
                    state := (identificationFill pfn display outPort hal.mDevice.state).2
                    calls := hal.mDevice.calls ++
                      [.HWC2_FUNCTION_GET_DISPLAY_IDENTIFICATION_DATA,
                       .HWC2_FUNCTION_GET_DISPLAY_IDENTIFICATION_DATA] } } } := by
  unfold getDisplayIdentificationData
  rw [hd]
  simp only [hwc2_device.invoke, identificationFill, identificationSizeQuery,
    List.append_assoc, List.singleton_append]

/-- C10: with a non-null dispatch entry, and the enumerators `HWC2_ERROR_NONE` and
`Error::NONE` having the same value, `getDisplayIdentificationData` makes a size query `q`
(size zero, null data pointer) followed by a fill call `f` (the queried size and `data()`
of a zeroed vector of that size, a null pointer when the queried size is zero). Its
result `r` has the code NONE exactly when both driver calls return
`HWC2_ERROR_NONE`. When the size query fails `r` has that error, `outData` is handed back
unchanged and the driver has been called once; when the fill call fails `r` has that
error and `outData` is handed back unchanged. On success the length of `outData` is the
size reported by the fill call and its first min(queried size, filled size) bytes are
those of the buffer the driver filled. -/
theorem getDisplayIdentificationData_spec {σ : Type} (k : Constants) (hal : HwcHalImpl σ)
    (pfn : HWC2_PFN_GET_DISPLAY_IDENTIFICATION_DATA σ) (display : Display) (outPort : Nat)
    (outData : List Nat) (q f : IdentificationReply × σ) (r : Ret σ IdentificationOut)
    (hk : k.HWC2_ERROR_NONE = k.NONE)
    (hd : hal.mDispatch.getDisplayIdentificationData = some pfn)
    (hq : q = identificationSizeQuery pfn display outPort hal.mDevice.state)
    (hf : f = identificationFill pfn display outPort hal.mDevice.state)
    (hr : r = getDisplayIdentificationData k hal display outPort outData) :
    (r.error = k.NONE ↔ q.1.error = k.HWC2_ERROR_NONE ∧ f.1.error = k.HWC2_ERROR_NONE) ∧
    (q.1.error ≠ k.HWC2_ERROR_NONE →
      r.error = q.1.error ∧
      r.out.outData = outData ∧
      r.hal.mDevice.calls
        = hal.mDevice.calls ++ [.HWC2_FUNCTION_GET_DISPLAY_IDENTIFICATION_DATA] ∧
      r.hal.mDevice.state = q.2) ∧
    (q.1.error = k.HWC2_ERROR_NONE → f.1.error ≠ k.HWC2_ERROR_NONE →
      r.error = f.1.error ∧
      r.out.outData = outData ∧
      r.hal.mDevice.calls
        = hal.mDevice.calls ++ [.HWC2_FUNCTION_GET_DISPLAY_IDENTIFICATION_DATA,
            .HWC2_FUNCTION_GET_DISPLAY_IDENTIFICATION_DATA] ∧
      r.hal.mDevice.state = f.2) ∧
    (q.1.error = k.HWC2_ERROR_NONE → f.1.error = k.HWC2_ERROR_NONE →
      r.out.outData.length = toUInt32 f.1.outSize ∧
      r.out.outData.take (min (toUInt32 q.1.outSize) (toUInt32 f.1.outSize))
        = (writeThrough (List.replicate (toUInt32 q.1.outSize) 0) f.1.outData).take
            (min (toUInt32 q.1.outSize) (toUInt32 f.1.outSize)) ∧
      r.hal.mDevice.calls
        = hal.mDevice.calls ++ [.HWC2_FUNCTION_GET_DISPLAY_IDENTIFICATION_DATA,
            .HWC2_FUNCTION_GET_DISPLAY_IDENTIFICATION_DATA] ∧
      r.hal.mDevice.state = f.2) := by
  have hR := getDisplayIdentificationData_some k hal pfn display outPort outData hd
  rw [← hq, ← hf, ← hr] at hR
  refine ⟨?_, ?_, ?_, ?_⟩
  · by_cases h1 : q.1.error = k.HWC2_ERROR_NONE
    · by_cases h2 : f.1.error = k.HWC2_ERROR_NONE
      · rw [hR, if_neg (not_not.mpr h1), if_neg (not_not.mpr h2)]
        exact ⟨fun _ => ⟨h1, h2⟩, fun _ => rfl⟩
      · rw [hR, if_neg (not_not.mpr h1), if_pos h2]
        exact ⟨fun h => absurd (h.trans hk.symm) h2, fun h => absurd h.2 h2⟩
    · rw [hR, if_pos h1]
      exact ⟨fun h => absurd (h.trans hk.symm) h1, fun h => absurd h.1 h1⟩
  · intro h1
    rw [hR, if_pos h1]
    exact ⟨rfl, rfl, rfl, rfl⟩
  · intro h1 h2
    rw [hR, if_neg (not_not.mpr h1), if_pos h2]
    exact ⟨rfl, rfl, rfl, rfl⟩
  · intro h1 h2
    rw [hR, if_neg (not_not.mpr h1), if_neg (not_not.mpr h2)]
    refine ⟨length_resize _ _, ?_, rfl, rfl⟩
    rw [hq]
    apply take_resize
    rw [length_writeThrough, List.length_replicate]

/-- Witness of C10 with `edidDriver`: on display 0 both calls succeed and `outData` becomes
the first three bytes the driver stored; on display 1 the size query fails with code 2
after one call; on display 2 the fill call fails with code 6; in both failures `outData`
keeps its prior content. On display 3 the size query reports no bytes, the second call
gets a null pointer again and succeeds, and `outData` is emptied after two calls. -/
theorem getDisplayIdentificationData_spec_witness :
    (getDisplayIdentificationData androidConstants edidHal 0 0 [1]).out.outData.length = 3 ∧
    (getDisplayIdentificationData androidConstants edidHal 0 0 [1]).out.outData = [7, 8, 9] ∧
    (getDisplayIdentificationData androidConstants edidHal 0 0 [1]).error = 0 ∧
    (getDisplayIdentificationData androidConstants edidHal 1 0 [1]).error = 2 ∧
    (getDisplayIdentificationData androidConstants edidHal 1 0 [1]).out.outData = [1] ∧
    (getDisplayIdentificationData androidConstants edidHal 1 0 [1]).hal.mDevice.calls.length = 1 ∧
    (getDisplayIdentificationData androidConstants edidHal 2 0 [1]).error = 6 ∧
    (getDisplayIdentificationData androidConstants edidHal 2 0 [1]).out.outData = [1] ∧
    (getDisplayIdentificationData androidConstants edidHal 3 0 [1]).error = 0 ∧
    (getDisplayIdentificationData androidConstants edidHal 3 0 [1]).out.outData.length = 0 ∧
    (getDisplayIdentificationData androidConstants edidHal 3 0 [1]).hal.mDevice.calls.length
      = 2 := by
  have h0 := getDisplayIdentificationData_spec androidConstants edidHal edidDriver 0 0 [1]
    _ _ _ rfl rfl rfl rfl rfl
  have h1 := getDisplayIdentificationData_spec androidConstants edidHal edidDriver 1 0 [1]
    _ _ _ rfl rfl rfl rfl rfl
  have h2 := getDisplayIdentificationData_spec androidConstants edidHal edidDriver 2 0 [1]
    _ _ _ rfl rfl rfl rfl rfl
  have h3 := getDisplayIdentificationData_spec androidConstants edidHal edidDriver 3 0 [1]
    _ _ _ rfl rfl rfl rfl rfl
  have q1 : (identificationSizeQuery edidDriver 1 0 edidHal.mDevice.state).1.error
      ≠ androidConstants.HWC2_ERROR_NONE := by decide
  have q2 : (identificationSizeQuery edidDriver 2 0 edidHal.mDevice.state).1.error
      = androidConstants.HWC2_ERROR_NONE := by decide
  have f2 : (identificationFill edidDriver 2 0 edidHal.mDevice.state).1.error
      ≠ androidConstants.HWC2_ERROR_NONE := by decide
  refine ⟨(h0.2.2.2 rfl rfl).1, by decide, h0.1.mpr ⟨rfl, rfl⟩, (h1.2.1 q1).1, (h1.2.1 q1).2.1,
    ?_, (h2.2.2.1 q2 f2).1, (h2.2.2.1 q2 f2).2.1, h3.1.mpr ⟨rfl, rfl⟩,
    (h3.2.2.2 rfl rfl).1, ?_⟩
  · rw [(h1.2.1 q1).2.2.1]
    rfl
  · rw [(h3.2.2.2 rfl rfl).2.2.1]
    rfl

/-! ## Display capabilities -/

/-- Unfolding of `getDisplayCapabilities` for a non-null entry, in terms of the size query
and the fill call. -/
theorem getDisplayCapabilities_some {σ : Type} (k : Constants) (hal : HwcHalImpl σ)
    (pfn : HWC2_PFN_GET_DISPLAY_CAPABILITIES σ) (display : Display)
    (outCapabilities : List Nat) (hd : hal.mDispatch.getDisplayCapabilities = some pfn) :
    getDisplayCapabilities k hal display outCapabilities
      = if (capabilitiesSizeQuery pfn display hal.mDevice.state).1.error
            ≠ k.HWC2_ERROR_NONE then
          { error := (capabilitiesSizeQuery pfn display hal.mDevice.state).1.error
            out := outCapabilities
            hal :=
              { hal with
                mDevice :=
                  { hal.mDevice with
                    state := (capabilitiesSizeQuery pfn display hal.mDevice.state).2
                    calls := hal.mDevice.calls ++ [.HWC2_FUNCTION_GET_DISPLAY_CAPABILITIES] } } }
        else if (capabilitiesFill pfn display outCapabilities hal.mDevice.state).1.error
            ≠ k.HWC2_ERROR_NONE then
          { error := (capabilitiesFill pfn display outCapabilities hal.mDevice.state).1.error
            out := []
            hal :=
              { hal with
                mDevice :=
                  { hal.mDevice with
                    state := (capabilitiesFill pfn display outCapabilities hal.mDevice.state).2
                    calls := hal.mDevice.calls ++
                      [.HWC2_FUNCTION_GET_DISPLAY_CAPABILITIES,
                       .HWC2_FUNCTION_GET_DISPLAY_CAPABILITIES] } } }
        else
          { error := k.NONE
            out :=
              writeThrough
                (resize outCapabilities
                  (toUInt32 (capabilitiesSizeQuery pfn display hal.mDevice.state).1.outCount))
                (capabilitiesFill pfn display outCapabilities
                  hal.mDevice.state).1.outCapabilities
            hal :=
              { hal with
                mDevice :=
                  { hal.mDevice with
                    state := (capabilitiesFill pfn display outCapabilities hal.mDevice.state).2
                    calls := hal.mDevice.calls ++
                      [.HWC2_FUNCTION_GET_DISPLAY_CAPABILITIES,
                       .HWC2_FUNCTION_GET_DISPLAY_CAPABILITIES] } } } := by
  unfold getDisplayCapabilities
  rw [hd]
  simp only [hwc2_device.invoke, capabilitiesFill, capabilitiesSizeQuery,
    List.append_assoc, List.singleton_append]

/-- C11: with a non-null dispatch entry, and the enumerators `HWC2_ERROR_NONE` and
`Error::NONE` having the same value, `getDisplayCapabilities` makes a size query `q`
(count zero, null pointer) and, only when that succeeds, a fill call `f` on the caller's
vector resized to the queried count. When the size query fails the result `r` has that
error, `outCapabilities` is handed back unchanged and the driver has been called once, so
no fill call was made. When the fill call fails `r` has that error and `outCapabilities`
is the empty vector. When `r` has the code NONE both calls succeeded, `outCapabilities` is
the resized vector as the driver filled it and its length is the count reported by the
size query, whatever count the fill call reported. -/
theorem getDisplayCapabilities_spec {σ : Type} (k : Constants) (hal : HwcHalImpl σ)
    (pfn : HWC2_PFN_GET_DISPLAY_CAPABILITIES σ) (display : Display)
    (outCapabilities : List Nat) (q f : CapabilitiesReply × σ) (r : Ret σ (List Nat))
    (hk : k.HWC2_ERROR_NONE = k.NONE)
    (hd : hal.mDispatch.getDisplayCapabilities = some pfn)
    (hq : q = capabilitiesSizeQuery pfn display hal.mDevice.state)
    (hf : f = capabilitiesFill pfn display outCapabilities hal.mDevice.state)
    (hr : r = getDisplayCapabilities k hal display outCapabilities) :
    (q.1.error ≠ k.HWC2_ERROR_NONE →
      r.error = q.1.error ∧
      r.out = outCapabilities ∧
      r.hal.mDevice.calls = hal.mDevice.calls ++ [.HWC2_FUNCTION_GET_DISPLAY_CAPABILITIES] ∧
      r.hal.mDevice.state = q.2) ∧
    (q.1.error = k.HWC2_ERROR_NONE → f.1.error ≠ k.HWC2_ERROR_NONE →
      r.error = f.1.error ∧
      r.out = [] ∧
      r.hal.mDevice.calls
        = hal.mDevice.calls ++ [.HWC2_FUNCTION_GET_DISPLAY_CAPABILITIES,
            .HWC2_FUNCTION_GET_DISPLAY_CAPABILITIES] ∧
      r.hal.mDevice.state = f.2) ∧
    (r.error = k.NONE →
      q.1.error = k.HWC2_ERROR_NONE ∧ f.1.error = k.HWC2_ERROR_NONE ∧
      r.out = writeThrough (resize outCapabilities (toUInt32 q.1.outCount)) f.1.outCapabilities ∧
      r.out.length = toUInt32 q.1.outCount ∧
      r.hal.mDevice.calls
        = hal.mDevice.calls ++ [.HWC2_FUNCTION_GET_DISPLAY_CAPABILITIES,
            .HWC2_FUNCTION_GET_DISPLAY_CAPABILITIES]) ∧
    (q.1.error = k.HWC2_ERROR_NONE → f.1.error = k.HWC2_ERROR_NONE → r.error = k.NONE) := by
  have hR := getDisplayCapabilities_some k hal pfn display outCapabilities hd
  rw [← hq, ← hf, ← hr] at hR
  refine ⟨?_, ?_, ?_, ?_⟩
  · intro h1
    rw [hR, if_pos h1]
    exact ⟨rfl, rfl, rfl, rfl⟩
  · intro h1 h2
    rw [hR, if_neg (not_not.mpr h1), if_pos h2]
    exact ⟨rfl, rfl, rfl, rfl⟩
  · intro hn
    by_cases h1 : q.1.error = k.HWC2_ERROR_NONE
    · by_cases h2 : f.1.error = k.HWC2_ERROR_NONE
      · rw [hR, if_neg (not_not.mpr h1), if_neg (not_not.mpr h2)]
        refine ⟨h1, h2, ?_, ?_, rfl⟩
        · rw [hq]
        · show (writeThrough _ _).length = _
          rw [length_writeThrough, length_resize, hq]
      · rw [hR, if_neg (not_not.mpr h1), if_pos h2] at hn
        exact absurd (hn.trans hk.symm) h2
    · rw [hR, if_pos h1] at hn
      exact absurd (hn.trans hk.symm) h1
  · intro h1 h2
    rw [hR, if_neg (not_not.mpr h1), if_neg (not_not.mpr h2)]

/-- Witness of C11 with `capabilitiesDriver` and a caller's vector of four entries: on
display 0 both calls succeed and the result has the three entries of the size query
although the fill call reported two; on display 1 the size query fails with code 2 after
one call and the vector is untouched; on display 2 the fill call fails with code 6 and the
vector is empty. -/
theorem getDisplayCapabilities_spec_witness :
    (getDisplayCapabilities androidConstants capabilitiesHal 0 [9, 9, 9, 9]).error = 0 ∧
    (getDisplayCapabilities androidConstants capabilitiesHal 0 [9, 9, 9, 9]).out.length = 3 ∧
    (getDisplayCapabilities androidConstants capabilitiesHal 0 [9, 9, 9, 9]).out = [5, 6, 9] ∧
    (getDisplayCapabilities androidConstants capabilitiesHal 1 [9, 9, 9, 9]).error = 2 ∧
    (getDisplayCapabilities androidConstants capabilitiesHal 1 [9, 9, 9, 9]).out
      = [9, 9, 9, 9] ∧
    (getDisplayCapabilities androidConstants capabilitiesHal 1 [9, 9, 9, 9]).hal.mDevice.calls
      = [.HWC2_FUNCTION_GET_DISPLAY_CAPABILITIES] ∧
    (getDisplayCapabilities androidConstants capabilitiesHal 2 [9, 9, 9, 9]).error = 6 ∧
    (getDisplayCapabilities androidConstants capabilitiesHal 2 [9, 9, 9, 9]).out = [] := by
  have h0 := getDisplayCapabilities_spec androidConstants capabilitiesHal capabilitiesDriver 0
    [9, 9, 9, 9] _ _ _ rfl rfl rfl rfl rfl
  have h1 := getDisplayCapabilities_spec androidConstants capabilitiesHal capabilitiesDriver 1
    [9, 9, 9, 9] _ _ _ rfl rfl rfl rfl rfl
  have h2 := getDisplayCapabilities_spec androidConstants capabilitiesHal capabilitiesDriver 2
    [9, 9, 9, 9] _ _ _ rfl rfl rfl rfl rfl
  have q1 : (capabilitiesSizeQuery capabilitiesDriver 1 capabilitiesHal.mDevice.state).1.error
      ≠ androidConstants.HWC2_ERROR_NONE := by decide
  have q2 : (capabilitiesSizeQuery capabilitiesDriver 2 capabilitiesHal.mDevice.state).1.error
      = androidConstants.HWC2_ERROR_NONE := by decide
  have f2 : (capabilitiesFill capabilitiesDriver 2 [9, 9, 9, 9]
      capabilitiesHal.mDevice.state).1.error ≠ androidConstants.HWC2_ERROR_NONE := by decide
  have e0 := h0.2.2.2 rfl rfl
  have s0 := h0.2.2.1 e0
  refine ⟨e0, s0.2.2.2.1, ?_, (h1.1 q1).1, (h1.1 q1).2.1, ?_, (h2.2.1 q2 f2).1,
    (h2.2.1 q2 f2).2.1⟩
  · rw [s0.2.2.1]
    decide
  · rw [(h1.1 q1).2.2.1]
    rfl

end HwcHal
